import Mathlib

/-!
# Verification of the Electron-Labs Groth16 verifier (BN254)

A shallow embedding of `src/verifier/mod.rs`, `src/verifier/near/mod.rs` and
`src/verifier/verification_key.rs`, together with the parts of their direct
dependencies (`ark-ff`/`ark-ec`/`ark-groth16` 0.3 and the borsh codec) that the
repository's behaviour flows through.

Conventions:
* Rust panics (`unwrap` on `Err`/`None`, out-of-bounds indexing) are modelled as
  `Option.none` in parsing/conversion functions, and as `Outcome.crash` in the
  top-level `verify_proof`.
* `ark_bn254::Fq` is `Fp256<FqParameters>`: a raw 4-limb little-endian
  Montgomery representation (the stored integer is `value * 2^256 mod p`).
  We keep the raw limbs (`Ark.Fq`) so that limb-level facts from the repository
  tests are expressible, and interpret them through `Ark.Fq.valZ`.
* The pairing engine (Miller loop, final exponentiation, G2 line
  precomputation, G2 negation) is out of scope per the specification and is
  taken as an abstract function parameter wherever it is used.
-/

namespace ElectronRs

/-- BN254 base-field modulus (`ark_bn254::Fq`). -/
def pBase : Nat :=
  21888242871839275222246405745257275088696311157297823662689037894645226208583

/-- BN254 scalar-field modulus (`ark_bn254::Fr`). -/
def rScalar : Nat :=
  21888242871839275222246405745257275088548364400416034343698204186575808495617

/-- The inverse of the Montgomery constant `R = 2^256` modulo `pBase`. -/
def montRinv : Nat :=
  20988524275117001072002809824448087578619730785600314334253784976379291040311

instance : NeZero pBase := ⟨by decide⟩

instance : NeZero rScalar := ⟨by decide⟩

/-- A Rust `[u64; 4]` limb array (little-endian order `l0, l1, l2, l3`). -/
structure Limbs4 where
  l0 : UInt64
  l1 : UInt64
  l2 : UInt64
  l3 : UInt64
deriving DecidableEq

/-- The natural number represented by a little-endian `[u64; 4]`. -/
def Limbs4.toNat (b : Limbs4) : Nat :=
  b.l0.toNat + 2 ^ 64 * (b.l1.toNat + 2 ^ 64 * (b.l2.toNat + 2 ^ 64 * b.l3.toNat))

/-- Split a natural number into little-endian `[u64; 4]` limbs (truncating above `2^256`). -/
def natToLimbs (n : Nat) : Limbs4 :=
  ⟨UInt64.ofNat n, UInt64.ofNat (n / 2 ^ 64), UInt64.ofNat (n / 2 ^ 128),
    UInt64.ofNat (n / 2 ^ 192)⟩

/-! ## The repository's local wrapper types (`src/verifier/mod.rs` lines 9-246)

These are the borsh-serialized structs the contract persists.  Rust `Vec` is a
Lean `List`; `bool` is `Bool`. -/

/-- Rust `struct BigInteger256 { val: [u64; 4] }` (mod.rs line 10). -/
structure BigInteger256 where
  val : Limbs4
deriving DecidableEq

/-- Rust `struct Fr { c0: BigInteger256 }` (mod.rs line 33). -/
structure Fr where
  c0 : BigInteger256
deriving DecidableEq

/-- Rust `struct Fq { c0: BigInteger256 }` (mod.rs line 56). -/
structure Fq where
  c0 : BigInteger256
deriving DecidableEq

/-- Rust `struct Fq2 { c0: BigInteger256, c1: BigInteger256 }` (mod.rs line 79). -/
structure Fq2 where
  c0 : BigInteger256
  c1 : BigInteger256
deriving DecidableEq

/-- Rust `struct Fq6 { c0: Fq2, c1: Fq2, c2: Fq2 }` (mod.rs line 105). -/
structure Fq6 where
  c0 : Fq2
  c1 : Fq2
  c2 : Fq2
deriving DecidableEq

/-- Rust `struct Fq12 { c0: Fq6, c1: Fq6 }` (mod.rs line 140). -/
structure Fq12 where
  c0 : Fq6
  c1 : Fq6
deriving DecidableEq

/-- Rust `struct G1Affine { x: BigInteger256, y: BigInteger256, infinity: bool }` (mod.rs line 168). -/
structure G1Affine where
  x : BigInteger256
  y : BigInteger256
  infinity : Bool
deriving DecidableEq

/-- Rust `struct G2Affine { x: Fq2, y: Fq2, infinity: bool }` (mod.rs line 201). -/
structure G2Affine where
  x : Fq2
  y : Fq2
  infinity : Bool
deriving DecidableEq

/-- Rust `struct G2Prepared { ell_coeffs: Vec<(Fq2, Fq2, Fq2)>, infinity: bool }` (mod.rs line 234). -/
structure G2Prepared where
  ell_coeffs : List (Fq2 × Fq2 × Fq2)
  infinity : Bool
deriving DecidableEq

/-- Rust `struct VerifyingKey` (mod.rs line 308). -/
structure VerifyingKey where
  alpha_g1 : G1Affine
  beta_g2 : G2Affine
  gamma_g2 : G2Affine
  delta_g2 : G2Affine
  gamma_abc_g1 : List G1Affine
deriving DecidableEq

/-- Rust `struct PreparedVerifyingKey` (mod.rs line 357). -/
structure PreparedVerifyingKey where
  vk : VerifyingKey
  alpha_g1_beta_g2 : Fq12
  gamma_g2_neg_pc : G2Prepared
  delta_g2_neg_pc : G2Prepared
deriving DecidableEq

/-- Rust `struct VerificationKeyJson` (mod.rs line 388): the serde-decoded artifact.
`num_public` is the `nPublic` field, `ic` the `IC` field. -/
structure VerificationKeyJson where
  protocol : String
  curve : String
  num_public : Nat
  vk_alpha_1 : List String
  vk_beta_2 : List (List String)
  vk_gamma_2 : List (List String)
  vk_delta_2 : List (List String)
  vk_alphabeta_12 : List (List (List String))
  ic : List (List String)
deriving DecidableEq

/-- Rust `struct CircomProofJson` (mod.rs line 460). -/
structure CircomProofJson where
  pi_a : List String
  pi_b : List (List String)
  pi_c : List String
  protocol : String
  curve : String
deriving DecidableEq

/-! ## The arkworks-side types the repository converts into

`ark_ff::BigInteger256` is `BigInteger256(pub [u64; 4])`; `ark_bn254::Fq` is
`Fp256<FqParameters>(BigInteger256, PhantomData)` holding the Montgomery
representation; extension fields and curve points are plain structs over it.
`ark_bn254::Fr` appears in the repository only through `fr_from_str` and the
abstract pairing check, so it is embedded by its field value `ZMod rScalar`. -/

namespace Ark

/-- Rust `ark_ff::BigInteger256`: a raw `[u64; 4]`. -/
structure BigInteger256 where
  val : ElectronRs.Limbs4
deriving DecidableEq

/-- Rust `ark_bn254::Fq`: the raw Montgomery-form limbs of a base-field element. -/
structure Fq where
  repr : BigInteger256
deriving DecidableEq

/-- Rust `ark_bn254::Fq2`: `QuadExtField { c0: Fq, c1: Fq }`. -/
structure Fq2 where
  c0 : Fq
  c1 : Fq
deriving DecidableEq

/-- Rust `ark_bn254::Fq6`: cubic extension over `Fq2`. -/
structure Fq6 where
  c0 : Fq2
  c1 : Fq2
  c2 : Fq2
deriving DecidableEq

/-- Rust `ark_bn254::Fq12`: quadratic extension over `Fq6`. -/
structure Fq12 where
  c0 : Fq6
  c1 : Fq6
deriving DecidableEq

/-- Rust `ark_bn254::G1Affine = short_weierstrass_jacobian::GroupAffine<g1::Parameters>`. -/
structure G1Affine where
  x : Fq
  y : Fq
  infinity : Bool
deriving DecidableEq

/-- Rust `ark_bn254::G1Projective`: Jacobian coordinates `(x, y, z)`. -/
structure G1Projective where
  x : Fq
  y : Fq
  z : Fq
deriving DecidableEq

/-- Rust `ark_bn254::G2Affine`. -/
structure G2Affine where
  x : Fq2
  y : Fq2
  infinity : Bool
deriving DecidableEq

/-- Rust `ark_bn254::G2Projective`: Jacobian coordinates over `Fq2`. -/
structure G2Projective where
  x : Fq2
  y : Fq2
  z : Fq2
deriving DecidableEq

/-- Rust `ark_ec::bn::G2Prepared<ark_bn254::Parameters>`. -/
structure G2Prepared where
  ell_coeffs : List (Fq2 × Fq2 × Fq2)
  infinity : Bool
deriving DecidableEq

/-- Rust `ark_groth16::VerifyingKey<ark_bn254::Bn254>`. -/
structure VerifyingKey where
  alpha_g1 : G1Affine
  beta_g2 : G2Affine
  gamma_g2 : G2Affine
  delta_g2 : G2Affine
  gamma_abc_g1 : List G1Affine
deriving DecidableEq

/-- Rust `ark_groth16::PreparedVerifyingKey<ark_bn254::Bn254>`. -/
structure PreparedVerifyingKey where
  vk : VerifyingKey
  alpha_g1_beta_g2 : Fq12
  gamma_g2_neg_pc : G2Prepared
  delta_g2_neg_pc : G2Prepared
deriving DecidableEq

/-- Rust `ark_groth16::Proof<ark_bn254::Bn254>`. -/
structure Proof where
  a : G1Affine
  b : G2Affine
  c : G1Affine
deriving DecidableEq

end Ark

/-! ## The `From` conversions between the local and arkworks types

Every impl in mod.rs lines 20-274 and 324-384 is a field-by-field repack of the
raw limb data; no arithmetic is performed (`Fp256::new` and `.0` wrap/unwrap
the representation verbatim). -/

/-- Rust `From<BigInteger256> for ark_ff::BigInteger256` (mod.rs line 20). -/
def BigInteger256.toArk (src : BigInteger256) : Ark.BigInteger256 := ⟨src.val⟩

/-- Rust `From<ark_ff::BigInteger256> for BigInteger256` (mod.rs line 26). -/
def BigInteger256.fromArk (src : Ark.BigInteger256) : BigInteger256 := ⟨src.val⟩

/-- Rust `From<Fq> for ark_bn254::Fq` (mod.rs line 66): `Fq::new` wraps the raw limbs. -/
def Fq.toArk (src : Fq) : Ark.Fq := ⟨src.c0.toArk⟩

/-- Rust `From<ark_bn254::Fq> for Fq` (mod.rs line 72): `.0` unwraps the raw limbs. -/
def Fq.fromArk (src : Ark.Fq) : Fq := ⟨.fromArk src.repr⟩

/-- Rust `From<Fq2> for ark_bn254::Fq2` (mod.rs line 90). -/
def Fq2.toArk (src : Fq2) : Ark.Fq2 := ⟨⟨src.c0.toArk⟩, ⟨src.c1.toArk⟩⟩

/-- Rust `From<ark_bn254::Fq2> for Fq2` (mod.rs line 98). -/
def Fq2.fromArk (src : Ark.Fq2) : Fq2 := ⟨.fromArk src.c0.repr, .fromArk src.c1.repr⟩

/-- Rust `From<Fq6> for ark_bn254::Fq6` (mod.rs line 121). -/
def Fq6.toArk (src : Fq6) : Ark.Fq6 := ⟨src.c0.toArk, src.c1.toArk, src.c2.toArk⟩

/-- Rust `From<ark_bn254::Fq6> for Fq6` (mod.rs line 130). -/
def Fq6.fromArk (src : Ark.Fq6) : Fq6 := ⟨.fromArk src.c0, .fromArk src.c1, .fromArk src.c2⟩

/-- Rust `From<Fq12> for ark_bn254::Fq12` (mod.rs line 151). -/
def Fq12.toArk (src : Fq12) : Ark.Fq12 := ⟨src.c0.toArk, src.c1.toArk⟩

/-- Rust `From<ark_bn254::Fq12> for Fq12` (mod.rs line 159). -/
def Fq12.fromArk (src : Ark.Fq12) : Fq12 := ⟨.fromArk src.c0, .fromArk src.c1⟩

/-- Rust `From<G1Affine> for ark_bn254::G1Affine` (mod.rs line 184). -/
def G1Affine.toArk (src : G1Affine) : Ark.G1Affine :=
  ⟨⟨src.x.toArk⟩, ⟨src.y.toArk⟩, src.infinity⟩

/-- Rust `From<ark_bn254::G1Affine> for G1Affine` (mod.rs line 192). -/
def G1Affine.fromArk (src : Ark.G1Affine) : G1Affine :=
  ⟨.fromArk src.x.repr, .fromArk src.y.repr, src.infinity⟩

/-- Rust `From<G2Affine> for ark_bn254::G2Affine` (mod.rs line 225). -/
def G2Affine.toArk (src : G2Affine) : Ark.G2Affine :=
  ⟨src.x.toArk, src.y.toArk, src.infinity⟩

/-- Rust `From<ark_bn254::G2Affine> for G2Affine` (mod.rs line 217). -/
def G2Affine.fromArk (src : Ark.G2Affine) : G2Affine :=
  ⟨.fromArk src.x, .fromArk src.y, src.infinity⟩

/-- Rust `From<G2Prepared> for ark_ec::bn::G2Prepared` (mod.rs line 261). -/
def G2Prepared.toArk (src : G2Prepared) : Ark.G2Prepared :=
  ⟨src.ell_coeffs.map fun t => (t.1.toArk, t.2.1.toArk, t.2.2.toArk), src.infinity⟩

/-- Rust `From<ark_ec::bn::G2Prepared> for G2Prepared` (mod.rs line 248). -/
def G2Prepared.fromArk (src : Ark.G2Prepared) : G2Prepared :=
  ⟨src.ell_coeffs.map fun t => (Fq2.fromArk t.1, Fq2.fromArk t.2.1, Fq2.fromArk t.2.2),
    src.infinity⟩

/-- Rust `From<VerifyingKey> for ark_groth16::VerifyingKey` (mod.rs line 324). -/
def VerifyingKey.toArk (src : VerifyingKey) : Ark.VerifyingKey :=
  ⟨src.alpha_g1.toArk, src.beta_g2.toArk, src.gamma_g2.toArk, src.delta_g2.toArk,
    src.gamma_abc_g1.map G1Affine.toArk⟩

/-- Rust `From<ark_groth16::VerifyingKey> for VerifyingKey` (mod.rs line 340). -/
def VerifyingKey.fromArk (src : Ark.VerifyingKey) : VerifyingKey :=
  ⟨.fromArk src.alpha_g1, .fromArk src.beta_g2, .fromArk src.gamma_g2, .fromArk src.delta_g2,
    src.gamma_abc_g1.map G1Affine.fromArk⟩

/-- Rust `From<PreparedVerifyingKey> for ark_groth16::PreparedVerifyingKey` (mod.rs line 364). -/
def PreparedVerifyingKey.toArk (src : PreparedVerifyingKey) : Ark.PreparedVerifyingKey :=
  ⟨src.vk.toArk, src.alpha_g1_beta_g2.toArk, src.gamma_g2_neg_pc.toArk,
    src.delta_g2_neg_pc.toArk⟩

/-- Rust `From<ark_groth16::PreparedVerifyingKey> for PreparedVerifyingKey` (mod.rs line 375). -/
def PreparedVerifyingKey.fromArk (src : Ark.PreparedVerifyingKey) : PreparedVerifyingKey :=
  ⟨.fromArk src.vk, .fromArk src.alpha_g1_beta_g2, .fromArk src.gamma_g2_neg_pc,
    .fromArk src.delta_g2_neg_pc⟩

/-! ## Field semantics of `Ark.Fq`

`Fp256` stores `value * 2^256 mod p`; arithmetic keeps the representation
canonical (below the modulus), so every element the repository ever builds is
`montFq v` for its field value `v`. -/

/-- The field value represented by the raw Montgomery limbs. -/
def Ark.Fq.valZ (a : Ark.Fq) : ZMod pBase :=
  (a.repr.val.toNat : ZMod pBase) * (montRinv : ZMod pBase)

/-- The canonical Montgomery representation of a field value. -/
def montFq (v : ZMod pBase) : Ark.Fq := ⟨⟨natToLimbs ((v.val * 2 ^ 256) % pBase)⟩⟩

/-- Rust `Fp256::mul` on canonical representations. -/
def Ark.Fq.mul (a b : Ark.Fq) : Ark.Fq := montFq (a.valZ * b.valZ)

/-- Rust `Fp256::square` on canonical representations. -/
def Ark.Fq.square (a : Ark.Fq) : Ark.Fq := montFq (a.valZ * a.valZ)

/-- Rust `Fp256::inverse().unwrap()` on canonical representations (only reached for
nonzero arguments in the repository, where the field inverse exists). -/
def Ark.Fq.inv (a : Ark.Fq) : Ark.Fq := montFq a.valZ⁻¹

/-- Rust `Fp256::is_zero`: the raw representation is the all-zero limb pattern. -/
def Ark.Fq.isZero (a : Ark.Fq) : Bool := a = montFq 0

/-- Rust `Fp256::is_one`: the raw representation equals `R mod p`. -/
def Ark.Fq.isOne (a : Ark.Fq) : Bool := a = montFq 1

/-- The `Fq2` componentwise constructor from field values. -/
def montFq2 (v0 v1 : ZMod pBase) : Ark.Fq2 := ⟨montFq v0, montFq v1⟩

/-- Rust `QuadExtField::mul` for BN254's `Fq2` (`u^2 = -1`). -/
def Ark.Fq2.mul (a b : Ark.Fq2) : Ark.Fq2 :=
  montFq2 (a.c0.valZ * b.c0.valZ - a.c1.valZ * b.c1.valZ)
    (a.c0.valZ * b.c1.valZ + a.c1.valZ * b.c0.valZ)

/-- Rust `QuadExtField::square` for `Fq2`. -/
def Ark.Fq2.square (a : Ark.Fq2) : Ark.Fq2 := a.mul a

/-- Rust `QuadExtField::inverse().unwrap()` for `Fq2` over nonresidue `-1`. -/
def Ark.Fq2.inv (a : Ark.Fq2) : Ark.Fq2 :=
  let nrm := a.c0.valZ * a.c0.valZ + a.c1.valZ * a.c1.valZ
  montFq2 (a.c0.valZ * nrm⁻¹) (-a.c1.valZ * nrm⁻¹)

/-- Rust `Fq2::is_zero`: both components zero. -/
def Ark.Fq2.isZero (a : Ark.Fq2) : Bool := a = montFq2 0 0

/-- Rust `Fq2::is_one`: `c0 = 1`, `c1 = 0`. -/
def Ark.Fq2.isOne (a : Ark.Fq2) : Bool := a = montFq2 1 0

/-! ## Decimal-string parsing (`fq_from_str` / `fr_from_str`)

`fq_from_str` (mod.rs line 276, near/mod.rs line 441) is
`ark_bn254::Fq::from_str(&s).unwrap()`.  `FromStr` for `Fp256` in ark-ff 0.3
rejects the empty string, any non-decimal-digit character and a leading zero
(except for the exact string `"0"`), and otherwise folds the digits with
`res = res * 10 + digit` in the field.  The `unwrap` turns a rejection into a
panic, modelled as `none`. -/

/-- Rust `char::to_digit(10)`. -/
def charDigit (c : Char) : Option Nat :=
  if c.isDigit then some (c.toNat - 48) else none

/-- The digit-folding loop of `Fp::from_str`, with its `first_digit` flag. -/
def fpFromStrGo (p : Nat) : List Char → Bool → ZMod p → Option (ZMod p)
  | [], _, res => some res
  | c :: cs, firstDigit, res =>
    match charDigit c with
    | none => none
    | some d =>
      if firstDigit && d == 0 then none
      else fpFromStrGo p cs false (res * 10 + (d : ZMod p))

/-- Rust `Fp::from_str` from ark-ff 0.3 (the `impl_Fp!` macro). -/
def fpFromStr (p : Nat) (s : String) : Option (ZMod p) :=
  if s.isEmpty then none
  else if s = "0" then some 0
  else fpFromStrGo p s.toList true 0

/-- Rust `fq_from_str` (near/mod.rs line 441): parse and store in Montgomery form;
`none` is the panic of the `unwrap`. -/
def fq_from_str (s : String) : Option Ark.Fq := (fpFromStr pBase s).map montFq

/-- Rust `fr_from_str` (near/mod.rs line 445), by its scalar-field value;
`none` is the panic of the `unwrap`. -/
def fr_from_str (s : String) : Option (ZMod rScalar) := fpFromStr rScalar s

/-! ## Projective-to-affine normalization (`ark-ec` 0.3, Jacobian coordinates)

`From<GroupProjective> for GroupAffine`: the zero point (`z = 0`) maps to
`GroupAffine::zero() = (0, 1, infinity = true)`; `z = 1` is returned as-is;
otherwise `x` is multiplied by `z⁻²` and `y` by `z⁻³`. -/

/-- Rust `ark_bn254::G1Affine::from(G1Projective)` at the raw-representation level. -/
def g1ProjToAffine (pt : Ark.G1Projective) : Ark.G1Affine :=
  if pt.z.isZero then ⟨montFq 0, montFq 1, true⟩
  else if pt.z.isOne then ⟨pt.x, pt.y, false⟩
  else
    let zinv := pt.z.inv
    let zinv2 := zinv.square
    ⟨pt.x.mul zinv2, pt.y.mul (zinv2.mul zinv), false⟩

/-- Rust `ark_bn254::G2Affine::from(G2Projective)`, componentwise over `Fq2`. -/
def g2ProjToAffine (pt : Ark.G2Projective) : Ark.G2Affine :=
  if pt.z.isZero then ⟨montFq2 0 0, montFq2 1 0, true⟩
  else if pt.z.isOne then ⟨pt.x, pt.y, false⟩
  else
    let zinv := pt.z.inv
    let zinv2 := zinv.square
    ⟨pt.x.mul zinv2, pt.y.mul (zinv2.mul zinv), false⟩

/-- Rust `g1_from_str` (mod.rs line 284, near/mod.rs line 449): index the three
coordinate strings (a panic when absent), parse each (a panic when malformed),
then normalize.  All panics are `none`. -/
def g1_from_str (g1 : List String) : Option Ark.G1Affine := do
  let x ← fq_from_str (← g1[0]?)
  let y ← fq_from_str (← g1[1]?)
  let z ← fq_from_str (← g1[2]?)
  some (g1ProjToAffine ⟨x, y, z⟩)

/-- Rust `g2_from_str` (mod.rs line 291, near/mod.rs line 456). -/
def g2_from_str (g2 : List (List String)) : Option Ark.G2Affine := do
  let r0 ← g2[0]?
  let x0 ← fq_from_str (← r0[0]?)
  let x1 ← fq_from_str (← r0[1]?)
  let r1 ← g2[1]?
  let y0 ← fq_from_str (← r1[0]?)
  let y1 ← fq_from_str (← r1[1]?)
  let r2 ← g2[2]?
  let z0 ← fq_from_str (← r2[0]?)
  let z1 ← fq_from_str (← r2[1]?)
  some (g2ProjToAffine ⟨⟨x0, x1⟩, ⟨y0, y1⟩, ⟨z0, z1⟩⟩)

/-! ## Conversions of the decoded JSON artifacts -/

/-- Rust `From<VerificationKeyJson> for ark_groth16::VerifyingKey` (mod.rs line 402,
near/mod.rs line 472). -/
def vkJsonToArkVerifyingKey (src : VerificationKeyJson) : Option Ark.VerifyingKey := do
  let alpha ← g1_from_str src.vk_alpha_1
  let beta ← g2_from_str src.vk_beta_2
  let gamma ← g2_from_str src.vk_gamma_2
  let delta ← g2_from_str src.vk_delta_2
  let gammaAbc ← src.ic.mapM g1_from_str
  some ⟨alpha, beta, gamma, delta, gammaAbc⟩

/-- Rust `From<VerificationKeyJson> for VerifyingKey` (mod.rs line 422). -/
def vkJsonToVerifyingKey (src : VerificationKeyJson) : Option VerifyingKey := do
  let alpha ← g1_from_str src.vk_alpha_1
  let beta ← g2_from_str src.vk_beta_2
  let gamma ← g2_from_str src.vk_gamma_2
  let delta ← g2_from_str src.vk_delta_2
  let gammaAbc ← src.ic.mapM fun x => (g1_from_str x).map G1Affine.fromArk
  some ⟨.fromArk alpha, .fromArk beta, .fromArk gamma, .fromArk delta, gammaAbc⟩

/-- Rust `From<CircomProofJson> for ark_groth16::Proof` (near/mod.rs line 383). -/
def proofJsonToArkProof (src : CircomProofJson) : Option Ark.Proof := do
  let a ← g1_from_str src.pi_a
  let b ← g2_from_str src.pi_b
  let c ← g1_from_str src.pi_c
  some ⟨a, b, c⟩

/-! ## Verifying-key preparation

`ark_groth16::prepare_verifying_key` clones the key, computes the
`alpha/beta` pairing and the Miller-loop line precomputation of the negated
`gamma` and `delta`.  The pairing engine operations are out of scope
(supplied by the arithmetic library), so they are abstract parameters here;
everything else is the repository's own wiring. -/

/-- Rust `ark_groth16::prepare_verifying_key`, over an abstract pairing engine:
`pairing` is `Bn254::pairing`, `negG2` the group negation of a `G2Affine`,
`g2Precompute` the `G2Prepared::from` line-coefficient precomputation. -/
def arkPrepareVerifyingKey
    (pairing : Ark.G1Affine → Ark.G2Affine → Ark.Fq12)
    (negG2 : Ark.G2Affine → Ark.G2Affine)
    (g2Precompute : Ark.G2Affine → Ark.G2Prepared)
    (vk : Ark.VerifyingKey) : Ark.PreparedVerifyingKey :=
  ⟨vk, pairing vk.alpha_g1 vk.beta_g2, g2Precompute (negG2 vk.gamma_g2),
    g2Precompute (negG2 vk.delta_g2)⟩

/-- Rust `get_prepared_verifying_key` (mod.rs line 481): convert the local key to
the arkworks form, prepare it, convert back. -/
def get_prepared_verifying_key
    (pairing : Ark.G1Affine → Ark.G2Affine → Ark.Fq12)
    (negG2 : Ark.G2Affine → Ark.G2Affine)
    (g2Precompute : Ark.G2Affine → Ark.G2Prepared)
    (vkey : VerifyingKey) : PreparedVerifyingKey :=
  .fromArk (arkPrepareVerifyingKey pairing negG2 g2Precompute vkey.toArk)

/-- Rust `get_prepared_verifying_key` (near/mod.rs line 420): takes the decoded
JSON artifact; its conversion into the arkworks key can panic (`none`). -/
def near_get_prepared_verifying_key
    (pairing : Ark.G1Affine → Ark.G2Affine → Ark.Fq12)
    (negG2 : Ark.G2Affine → Ark.G2Affine)
    (g2Precompute : Ark.G2Affine → Ark.G2Prepared)
    (vkey : VerificationKeyJson) : Option PreparedVerifyingKey :=
  (vkJsonToArkVerifyingKey vkey).map fun avk =>
    .fromArk (arkPrepareVerifyingKey pairing negG2 g2Precompute avk)

/-! ## Proof verification (`verify_proof`, near/mod.rs line 426)

`ark_groth16::verify_proof` first runs `prepare_inputs`, which returns
`Err(SynthesisError::MalformedVerifyingKey)` when
`public_inputs.len() + 1 != pvk.vk.gamma_abc_g1.len()`, and otherwise runs the
multi-pairing check, whose only error is `UnexpectedIdentity` from the final
exponentiation.  The repository calls `.unwrap()` on that `Result`
(near/mod.rs line 436), so both error cases are panics, not reported errors.
The group accumulation and the pairing product are out of scope and abstracted
into `pairingCheck`. -/

/-- The two error cases of `ark_groth16::verify_proof`. -/
inductive SynthesisError where
  | malformedVerifyingKey
  | unexpectedIdentity
deriving DecidableEq

/-- Rust `ark_groth16::verify_proof`: the arity guard from `prepare_inputs`
followed by the abstract pairing check (`none` models the
`UnexpectedIdentity` failure of the final exponentiation). -/
def arkVerifyProof
    (pairingCheck : Ark.PreparedVerifyingKey → Ark.Proof → List (ZMod rScalar) → Option Bool)
    (pvk : Ark.PreparedVerifyingKey) (proof : Ark.Proof)
    (publicInputs : List (ZMod rScalar)) : Except SynthesisError Bool :=
  if publicInputs.length + 1 ≠ pvk.vk.gamma_abc_g1.length then
    .error .malformedVerifyingKey
  else
    match pairingCheck pvk proof publicInputs with
    | none => .error .unexpectedIdentity
    | some b => .ok b

/-- Rust `enum VerifierError` (near/mod.rs line 10): the only reported error type
of the near verifier module. -/
inductive VerifierError where
  | parseError : String → VerifierError
deriving DecidableEq

/-- The observable result of a fallible Rust call: a returned value, a
reported `Err` value, or a panic. -/
inductive Outcome (α : Type) where
  | ok : α → Outcome α
  | err : VerifierError → Outcome α
  | crash : Outcome α
deriving DecidableEq

/-- Returns `true` exactly on a reported (returned) error value. -/
def Outcome.isReportedErr : Outcome α → Bool
  | .err _ => true
  | _ => false

/-- Rust `verify_proof` (near/mod.rs line 426).  The two `serde_json_wasm` decoding
steps are out-of-scope JSON parsing and appear as abstract parameters
`parseProof` / `parseInputs`; their failures are the reported
`VerifierError::ParseError` values.  The `fr_from_str` conversions, the proof
conversion and the `.unwrap()` on `ark_groth16::verify_proof` all panic
(`crash`) on failure. -/
def verify_proof
    (parseProof : String → Option CircomProofJson)
    (parseInputs : String → Option (List String))
    (pairingCheck : Ark.PreparedVerifyingKey → Ark.Proof → List (ZMod rScalar) → Option Bool)
    (pvk : PreparedVerifyingKey) (proof_str pub_inputs_str : String) : Outcome Bool :=
  match parseProof proof_str with
  | none => .err (.parseError "proof")
  | some proof =>
    match parseInputs pub_inputs_str with
    | none => .err (.parseError "public inputs")
    | some pub_inputs =>
      match pub_inputs.mapM fr_from_str with
      | none => .crash
      | some arkPubInputs =>
        match proofJsonToArkProof proof with
        | none => .crash
        | some arkProof =>
          match arkVerifyProof pairingCheck pvk.toArk arkProof arkPubInputs with
          | .error _ => .crash
          | .ok res => .ok res

/-! ## The binary persistence codec (borsh derive semantics)

Every local struct derives `BorshSerialize`/`BorshDeserialize`.  The derive
concatenates the fields in declaration order; `u64` is 8 little-endian bytes,
`[u64; 4]` is the 4 limbs with no prefix, `bool` one byte (`0`/`1`, anything
else is a decoding error per the spec's `InvalidDiscriminant`), `Vec<T>` a
`u32` little-endian length prefix (`len as u32`) followed by the elements, and
tuples are concatenated componentwise.  `try_from_slice` decodes and then
fails unless the whole input was consumed. -/

/-- Recombine little-endian base-256 digits. -/
def leBytesNat : List UInt8 → Nat
  | [] => 0
  | b :: bs => b.toNat + 256 * leBytesNat bs

/-- borsh `u64`: 8 little-endian bytes. -/
def serU64 (x : UInt64) : List UInt8 :=
  [UInt8.ofNat x.toNat, UInt8.ofNat (x.toNat / 256), UInt8.ofNat (x.toNat / 256 ^ 2),
   UInt8.ofNat (x.toNat / 256 ^ 3), UInt8.ofNat (x.toNat / 256 ^ 4),
   UInt8.ofNat (x.toNat / 256 ^ 5), UInt8.ofNat (x.toNat / 256 ^ 6),
   UInt8.ofNat (x.toNat / 256 ^ 7)]

/-- borsh `u32` length prefix: `len as u32` (little-endian, truncating). -/
def serU32 (n : Nat) : List UInt8 :=
  [UInt8.ofNat n, UInt8.ofNat (n / 256), UInt8.ofNat (n / 256 ^ 2), UInt8.ofNat (n / 256 ^ 3)]

/-- borsh `bool`: one byte, `1` for `true`, `0` for `false`. -/
def serBool (b : Bool) : List UInt8 := [if b then 1 else 0]

/-- borsh `Vec<T>`: `u32` length prefix then the elements. -/
def serList (f : α → List UInt8) (xs : List α) : List UInt8 :=
  serU32 xs.length ++ (xs.map f).flatten

/-- borsh `[u64; 4]`: the limbs in order, no prefix. -/
def Limbs4.ser (b : Limbs4) : List UInt8 :=
  serU64 b.l0 ++ serU64 b.l1 ++ serU64 b.l2 ++ serU64 b.l3

/-- borsh `BigInteger256`. -/
def BigInteger256.ser (b : BigInteger256) : List UInt8 := b.val.ser

/-- borsh `Fr`. -/
def Fr.ser (f : Fr) : List UInt8 := f.c0.ser

/-- borsh `Fq`. -/
def Fq.ser (f : Fq) : List UInt8 := f.c0.ser

/-- borsh `Fq2`. -/
def Fq2.ser (f : Fq2) : List UInt8 := f.c0.ser ++ f.c1.ser

/-- borsh `Fq6`. -/
def Fq6.ser (f : Fq6) : List UInt8 := f.c0.ser ++ f.c1.ser ++ f.c2.ser

/-- borsh `Fq12`. -/
def Fq12.ser (f : Fq12) : List UInt8 := f.c0.ser ++ f.c1.ser

/-- borsh `G1Affine`. -/
def G1Affine.ser (g : G1Affine) : List UInt8 := g.x.ser ++ g.y.ser ++ serBool g.infinity

/-- borsh `G2Affine`. -/
def G2Affine.ser (g : G2Affine) : List UInt8 := g.x.ser ++ g.y.ser ++ serBool g.infinity

/-- borsh `(Fq2, Fq2, Fq2)`. -/
def ellCoeffSer (t : Fq2 × Fq2 × Fq2) : List UInt8 := t.1.ser ++ t.2.1.ser ++ t.2.2.ser

/-- borsh `G2Prepared`. -/
def G2Prepared.ser (g : G2Prepared) : List UInt8 :=
  serList ellCoeffSer g.ell_coeffs ++ serBool g.infinity

/-- borsh `VerifyingKey`. -/
def VerifyingKey.ser (v : VerifyingKey) : List UInt8 :=
  v.alpha_g1.ser ++ v.beta_g2.ser ++ v.gamma_g2.ser ++ v.delta_g2.ser ++
    serList G1Affine.ser v.gamma_abc_g1

/-- borsh `PreparedVerifyingKey`. -/
def PreparedVerifyingKey.ser (p : PreparedVerifyingKey) : List UInt8 :=
  p.vk.ser ++ p.alpha_g1_beta_g2.ser ++ p.gamma_g2_neg_pc.ser ++ p.delta_g2_neg_pc.ser

/-- A borsh reader: consume a prefix of the byte stream or fail. -/
def ReadM (α : Type) : Type := List UInt8 → Option (α × List UInt8)

/-- Reader `pure`. -/
def rPure (a : α) : ReadM α := fun b => some (a, b)

/-- Reader sequencing: failures propagate. -/
def rBind (m : ReadM α) (f : α → ReadM β) : ReadM β := fun b =>
  match m b with
  | none => none
  | some (a, r) => f a r

instance : Monad ReadM where
  pure := rPure
  bind := rBind

/-- borsh `u64` decode: exactly 8 bytes, little-endian. -/
def readU64 : ReadM UInt64 := fun b =>
  match b with
  | b0 :: b1 :: b2 :: b3 :: b4 :: b5 :: b6 :: b7 :: rest =>
    some (UInt64.ofNat (leBytesNat [b0, b1, b2, b3, b4, b5, b6, b7]), rest)
  | _ => none

/-- borsh `u32` decode (as a `Nat` below `2^32`): exactly 4 bytes. -/
def readU32 : ReadM Nat := fun b =>
  match b with
  | b0 :: b1 :: b2 :: b3 :: rest => some (leBytesNat [b0, b1, b2, b3], rest)
  | _ => none

/-- borsh `bool` decode: one byte, `0` or `1`, anything else is an error. -/
def readBool : ReadM Bool := fun b =>
  match b with
  | b0 :: rest =>
    if b0 = 0 then some (false, rest) else if b0 = 1 then some (true, rest) else none
  | [] => none

/-- Read exactly `n` elements. -/
def readListAux (m : ReadM α) : Nat → ReadM (List α)
  | 0 => rPure []
  | n + 1 => do
    let x ← m
    let xs ← readListAux m n
    pure (x :: xs)

/-- borsh `Vec<T>` decode: length prefix then that many elements. -/
def readList (m : ReadM α) : ReadM (List α) := do
  let n ← readU32
  readListAux m n

/-- borsh `[u64; 4]` decode. -/
def readLimbs : ReadM Limbs4 := do
  let a ← readU64
  let b ← readU64
  let c ← readU64
  let d ← readU64
  pure ⟨a, b, c, d⟩

/-- borsh `BigInteger256` decode. -/
def readBigInteger256 : ReadM BigInteger256 := do
  pure ⟨← readLimbs⟩

/-- borsh `Fr` decode. -/
def readFr : ReadM Fr := do
  pure ⟨← readBigInteger256⟩

/-- borsh `Fq` decode. -/
def readFq : ReadM Fq := do
  pure ⟨← readBigInteger256⟩

/-- borsh `Fq2` decode. -/
def readFq2 : ReadM Fq2 := do
  let c0 ← readBigInteger256
  let c1 ← readBigInteger256
  pure ⟨c0, c1⟩

/-- borsh `Fq6` decode. -/
def readFq6 : ReadM Fq6 := do
  let c0 ← readFq2
  let c1 ← readFq2
  let c2 ← readFq2
  pure ⟨c0, c1, c2⟩

/-- borsh `Fq12` decode. -/
def readFq12 : ReadM Fq12 := do
  let c0 ← readFq6
  let c1 ← readFq6
  pure ⟨c0, c1⟩

/-- borsh `G1Affine` decode. -/
def readG1Affine : ReadM G1Affine := do
  let x ← readBigInteger256
  let y ← readBigInteger256
  let inf ← readBool
  pure ⟨x, y, inf⟩

/-- borsh `G2Affine` decode. -/
def readG2Affine : ReadM G2Affine := do
  let x ← readFq2
  let y ← readFq2
  let inf ← readBool
  pure ⟨x, y, inf⟩

/-- borsh `(Fq2, Fq2, Fq2)` decode. -/
def readEllCoeff : ReadM (Fq2 × Fq2 × Fq2) := do
  let a ← readFq2
  let b ← readFq2
  let c ← readFq2
  pure (a, b, c)

/-- borsh `G2Prepared` decode. -/
def readG2Prepared : ReadM G2Prepared := do
  let coeffs ← readList readEllCoeff
  let inf ← readBool
  pure ⟨coeffs, inf⟩

/-- borsh `VerifyingKey` decode. -/
def readVerifyingKey : ReadM VerifyingKey := do
  let alpha ← readG1Affine
  let beta ← readG2Affine
  let gamma ← readG2Affine
  let delta ← readG2Affine
  let gammaAbc ← readList readG1Affine
  pure ⟨alpha, beta, gamma, delta, gammaAbc⟩

/-- borsh `PreparedVerifyingKey` decode. -/
def readPreparedVerifyingKey : ReadM PreparedVerifyingKey := do
  let vk ← readVerifyingKey
  let ab ← readFq12
  let gpc ← readG2Prepared
  let dpc ← readG2Prepared
  pure ⟨vk, ab, gpc, dpc⟩

/-- borsh `try_from_slice`: decode and require the buffer be fully consumed. -/
def tryFromSlice (m : ReadM α) (b : List UInt8) : Option α :=
  match m b with
  | some (x, []) => some x
  | _ => none

/-! ## The JSON artifact schema

The JSON text decoder itself (`serde_json_wasm`) is out of scope; only the
schema and value semantics are in scope.  `Json` is the decoded value tree,
and the two parsers below follow the serde-derive semantics of the structs:
each named field must be present with the right shape; `protocol`, `curve`
and `nPublic` are accepted with *any* string/string/integer value; nothing
constrains array lengths. -/

/-- A decoded JSON value (only the shapes the artifacts use). -/
inductive Json where
  | str : String → Json
  | num : Nat → Json
  | arr : List Json → Json
  | obj : List (String × Json) → Json

/-- First-match field lookup in a JSON object. -/
def jLookup (k : String) : List (String × Json) → Option Json
  | [] => none
  | (k2, v) :: rest => if k2 = k then some v else jLookup k rest

/-- Decode a JSON object into its field list. -/
def jObj : Json → Option (List (String × Json))
  | .obj fs => some fs
  | _ => none

/-- Decode a JSON string. -/
def jStr : Json → Option String
  | .str s => some s
  | _ => none

/-- Decode a JSON integer. -/
def jNum : Json → Option Nat
  | .num n => some n
  | _ => none

/-- Decode `Vec<String>`. -/
def jStrList : Json → Option (List String)
  | .arr xs => xs.mapM jStr
  | _ => none

/-- Decode `Vec<Vec<String>>`. -/
def jStrList2 : Json → Option (List (List String))
  | .arr xs => xs.mapM jStrList
  | _ => none

/-- Decode `Vec<Vec<Vec<String>>>`. -/
def jStrList3 : Json → Option (List (List (List String)))
  | .arr xs => xs.mapM jStrList2
  | _ => none

/-- The six array fields of the verifying-key schema, decoded in order. -/
def parseVkArrays (fields : List (String × Json)) :
    Option (List String × List (List String) × List (List String) × List (List String) ×
      List (List (List String)) × List (List String)) := do
  let alpha ← jStrList (← jLookup "vk_alpha_1" fields)
  let beta ← jStrList2 (← jLookup "vk_beta_2" fields)
  let gamma ← jStrList2 (← jLookup "vk_gamma_2" fields)
  let delta ← jStrList2 (← jLookup "vk_delta_2" fields)
  let alphabeta ← jStrList3 (← jLookup "vk_alphabeta_12" fields)
  let ic ← jStrList2 (← jLookup "IC" fields)
  some (alpha, beta, gamma, delta, alphabeta, ic)

/-- Modelled from the spec: the serde-derived decoding of
`VerificationKeyJson` (`parse_verification_key`, near/mod.rs line 412, whose
derive-generated body is not part of the repository sources).  Required keys
`protocol`, `curve`, `nPublic` (any string/string/integer value), and the six
array fields with their element shapes; a missing key or wrong shape is a
`SchemaError` (`none`); no arity or value check beyond the shapes. -/
def parse_verification_key (j : Json) : Option VerificationKeyJson := do
  let fields ← jObj j
  let protocol ← jStr (← jLookup "protocol" fields)
  let curve ← jStr (← jLookup "curve" fields)
  let numPublic ← jNum (← jLookup "nPublic" fields)
  let arrays ← parseVkArrays fields
  some ⟨protocol, curve, numPublic, arrays.1, arrays.2.1, arrays.2.2.1, arrays.2.2.2.1,
    arrays.2.2.2.2.1, arrays.2.2.2.2.2⟩

/-- Modelled from the spec: the serde-derived decoding of `CircomProofJson`
(`parse_circom_proof`, near/mod.rs line 393).  The `curve` field has
`#[serde(default = "String::new")]`: an absent key defaults to `""`. -/
def parse_circom_proof (j : Json) : Option CircomProofJson := do
  let fields ← jObj j
  let piA ← jStrList (← jLookup "pi_a" fields)
  let piB ← jStrList2 (← jLookup "pi_b" fields)
  let piC ← jStrList (← jLookup "pi_c" fields)
  let protocol ← jStr (← jLookup "protocol" fields)
  let curve ← match jLookup "curve" fields with
    | none => some ""
    | some v => jStr v
  some ⟨piA, piB, piC, protocol, curve⟩

/-! ## Concrete artifacts from the repository's tests -/

/-- The decoded form of the groth16/bn128 verifying-key JSON with 21 public
inputs from the near test module (`get_vkey`, near/mod.rs lines 497-693). -/
def exampleVKeyJson : VerificationKeyJson where
  protocol := "groth16"
  curve := "bn128"
  num_public := 21
  vk_alpha_1 :=
    ["20491192805390485299153009773594534940189261866228447918068658471970481763042",
     "9383485363053290200918347156157836566562967994039712273449902621266178545958",
     "1"]
  vk_beta_2 :=
    [["6375614351688725206403948262868962793625744043794305715222011528459656738731",
      "4252822878758300859123897981450591353533073413197771768651442665752259397132"],
     ["10505242626370262277552901082094356697409835680220590971873171140371331206856",
      "21847035105528745403288232691147584728191162732299865338377159692350059136679"],
     ["1", "0"]]
  vk_gamma_2 :=
    [["10857046999023057135944570762232829481370756359578518086990519993285655852781",
      "11559732032986387107991004021392285783925812861821192530917403151452391805634"],
     ["8495653923123431417604973247489272438418190587263600148770280649306958101930",
      "4082367875863433681332203403145435568316851327593401208105741076214120093531"],
     ["1", "0"]]
  vk_delta_2 :=
    [["166438788818422684353143109466712365495487529761282054253940311767202847529",
      "14821889692288092546390398853883577003395705920427691037003877337111307008319"],
     ["5211044291848451570308359449705497730711843248959818951644537468318735026319",
      "3349759874590271776701023934351541831283252450166481144436728710799565826635"],
     ["1", "0"]]
  vk_alphabeta_12 :=
    [[["2029413683389138792403550203267699914886160938906632433982220835551125967885",
       "21072700047562757817161031222997517981543347628379360635925549008442030252106"],
      ["5940354580057074848093997050200682056184807770593307860589430076672439820312",
       "12156638873931618554171829126792193045421052652279363021382169897324752428276"],
      ["7898200236362823042373859371574133993780991612861777490112507062703164551277",
       "7074218545237549455313236346927434013100842096812539264420499035217050630853"]],
     [["7077479683546002997211712695946002074877511277312570035766170199895071832130",
       "10093483419865920389913245021038182291233451549023025229112148274109565435465"],
      ["4595479056700221319381530156280926371456704509942304414423590385166031118820",
       "19831328484489333784475432780421641293929726139240675179672856274388269393268"],
      ["11934129596455521040620786944827826205713621633706285934057045369193958244500",
       "8037395052364110730298837004334506829870972346962140206007064471173334027475"]]]
  ic :=
    [["19975645442203377055504350944199411205645925605842881710313661501103970826593",
      "17515161622283010384423259590087060433422690594791060414171309961412819784969", "1"],
     ["8314529012362679498714409542216060373647165806213078732764739247682086265767",
      "121366207716244222195924313927761544312158108247873731042786280646943184074", "1"],
     ["16709720837782968526180617884167855231344603866174025119200385206304701258678",
      "3147822512060247213265367088074297137791420360497197470911250310113275037763", "1"],
     ["14216723210244410575876418879665374598747581482663712212010511617392597830954",
      "15811996758528967218865995673654714048570588460636125402018277656651434631576", "1"],
     ["7348238908009886871059992732128931157271697524606274111411455960455037416413",
      "14001472805890407823397893627240743988837305207489952388063413323698861707624", "1"],
     ["2138882192497635891459717929673559440104769163700828386965661447497938982721",
      "5186793583243682306353927402481196491547812815293709454908025411581465445004", "1"],
     ["2116764452247307873087707246637130330345204236852642632713114592476993977670",
      "14896161713831569254989869822450928542555444355351318861266435690413316845347", "1"],
     ["16392430006950202355682918247811738427580100868571691215288876389925500647279",
      "19437084047439114680241004405825353549565621104782399561893962443338240135858", "1"],
     ["16963065381115919041780779888616737843143206987161162977928288398707149790618",
      "9087066945988971374305861013885116715721320414719802148300649773920118102481", "1"],
     ["13714673228950478504452201663230221577251226934030004828193127473877480610295",
      "9332072320101623120415187992550525752876274301602491265535702933221101004380", "1"],
     ["1064045990922553586834518447367936820175319540784875187573912133883165188670",
      "18287981330912970040426745735838860702735392209815444404076135459948276202848", "1"],
     ["9210826867500141415001909980706988517816622370128886786816673451224513701503",
      "3651094788905360180553273507287364045940819368096000322156684552199804097143", "1"],
     ["17720362295505313322759315353391656693108343058592864160681048989141882794083",
      "10097671657793855671159749436121468469201270375403582850205385628210921488731", "1"],
     ["9801543874486422221954003660705098546171144064277720948049325854942931758306",
      "20479944074043794678092216875190551894013835948904068657881623722226189539016", "1"],
     ["5374663040433250412848838440386505484894911153493652424898166227177046711199",
      "13679665179607144765496503536099360866217236185602567461732884358192393872279", "1"],
     ["1064329530975255434535409396597644022861254752006703233721201637345800440139",
      "5140009461438788926486789050955593582109349287858692508879168080077367120629", "1"],
     ["15366436033551689602012357199098419434258945123964889817106842055644617190504",
      "898268788386333715715903230667785887632210104432209295828625929694299885006", "1"],
     ["5625417729666095139456177838606211212046421091440422619829111829213675828978",
      "18455517249670178543137281808225159109856379895586238312217422816116366743603", "1"],
     ["17537235019815029148949517328224734386526017513684721827218738801833451783210",
      "2342105886191919519714066767578407697780765722350456533494274069027087830216", "1"],
     ["8512191115799353035296472708809096858085180357544392842547774011355858433041",
      "2541245043439530389724749443817975569327264943016202232800605721736943199048", "1"],
     ["19224585989189727449965872368330162278522031170641583311558474979239173678715",
      "18166021891232232834725962994255689261693690030629187665379835418854223722023", "1"],
     ["14017181509831449693830612331037537298674425286306310710534048602053149127774",
      "330831566870832606085453648362982294226755734586757078631724647552023101374", "1"]]

/-- The reference limbs for `alpha_g1.x` of the prepared 21-input key
(`test_prepared_verification_key`, near/mod.rs lines 810-815). -/
def exampleAlphaX : BigInteger256 :=
  ⟨⟨129941079445278231, 14986904513597369283, 4385962745611939561, 498495035870568143⟩⟩

/-- The reference limbs for `alpha_g1.y` of the prepared 21-input key
(near/mod.rs lines 816-821). -/
def exampleAlphaY : BigInteger256 :=
  ⟨⟨3551982070992374558, 4387704605030068278, 1260785428361773688, 452138810654549394⟩⟩

/-! ## Small fixtures and auxiliary predicates used by the theorems -/

/-- The integer value of a decimal digit string (most significant first). -/
def decVal (cs : List Char) : Nat := cs.foldl (fun a c => 10 * a + (c.toNat - 48)) 0

/-- The arity-plus-digits precondition under which `g1_from_str` cannot panic:
at least three coordinate strings, the first three being valid decimals. -/
def g1StrsOk (v : List String) : Prop :=
  3 ≤ v.length ∧ ∀ s ∈ v.take 3, (fpFromStr pBase s).isSome

/-- The corresponding precondition for `g2_from_str`: at least three inner
arrays, each of the first three holding at least two valid decimals. -/
def g2StrsOk (v : List (List String)) : Prop :=
  3 ≤ v.length ∧ ∀ r ∈ v.take 3, 2 ≤ r.length ∧ ∀ s ∈ r.take 2, (fpFromStr pBase s).isSome

instance (v : List String) : Decidable (g1StrsOk v) := by
  unfold g1StrsOk; infer_instance

instance (v : List (List String)) : Decidable (g2StrsOk v) := by
  unfold g2StrsOk; infer_instance

/-- A projective G1 triple over small decimals (`z = 1`). -/
def smallG1Strs : List String := ["1", "2", "1"]

/-- A projective G2 triple over small decimals (`z = (1, 0)`). -/
def smallG2Strs : List (List String) := [["1", "0"], ["2", "0"], ["1", "0"]]

/-- A decoded verifying-key artifact whose `IC` length (1) disagrees with
`nPublic + 1` (6). -/
def smallVKeyJson : VerificationKeyJson :=
  ⟨"groth16", "bn128", 5, smallG1Strs, smallG2Strs, smallG2Strs, smallG2Strs, [], [smallG1Strs]⟩

/-- The list `smallG1Strs` as a JSON value. -/
def smallG1Json : Json := .arr [.str "1", .str "2", .str "1"]

/-- The list `smallG2Strs` as a JSON value. -/
def smallG2Json : Json :=
  .arr [.arr [.str "1", .str "0"], .arr [.str "2", .str "0"], .arr [.str "1", .str "0"]]

/-- A schema-valid verifying-key JSON object whose `vk_alpha_1` array is
empty: the JSON layer accepts it, the conversion then indexes out of bounds. -/
def shortVKeyJsonFields : List (String × Json) :=
  [("protocol", .str "groth16"), ("curve", .str "bn128"), ("nPublic", .num 1),
   ("vk_alpha_1", .arr []), ("vk_beta_2", smallG2Json), ("vk_gamma_2", smallG2Json),
   ("vk_delta_2", smallG2Json), ("vk_alphabeta_12", .arr []), ("IC", .arr [])]

/-- A schema-valid proof JSON object whose `pi_a` array is empty (the `curve`
key is absent and defaults to `""`). -/
def shortProofJsonFields : List (String × Json) :=
  [("pi_a", .arr []), ("pi_b", smallG2Json), ("pi_c", smallG1Json),
   ("protocol", .str "groth16")]

/-- The six array fields shared by the two C6 witness artifacts. -/
def nonIntfCommonFields : List (String × Json) :=
  [("vk_alpha_1", smallG1Json), ("vk_beta_2", smallG2Json), ("vk_gamma_2", smallG2Json),
   ("vk_delta_2", smallG2Json), ("vk_alphabeta_12", .arr []),
   ("IC", .arr [smallG1Json])]

/-- First witness artifact: groth16/bn128 with `nPublic = 21`. -/
def nonIntfFields1 : List (String × Json) :=
  ("protocol", .str "groth16") :: ("curve", .str "bn128") :: ("nPublic", .num 21) ::
    nonIntfCommonFields

/-- Second witness artifact: differs only in the three recorded values. -/
def nonIntfFields2 : List (String × Json) :=
  ("protocol", .str "plonk") :: ("curve", .str "bls12381") :: ("nPublic", .num 7) ::
    nonIntfCommonFields

/-- All-zero limbs. -/
def zeroLimbs : Limbs4 := ⟨0, 0, 0, 0⟩

/-- All-zero `BigInteger256`. -/
def zeroBigInt : BigInteger256 := ⟨zeroLimbs⟩

/-- All-zero local `Fq2`. -/
def zeroLocalFq2 : Fq2 := ⟨zeroBigInt, zeroBigInt⟩

/-- All-zero local `Fq6`. -/
def zeroLocalFq6 : Fq6 := ⟨zeroLocalFq2, zeroLocalFq2, zeroLocalFq2⟩

/-- All-zero local `Fq12`. -/
def zeroLocalFq12 : Fq12 := ⟨zeroLocalFq6, zeroLocalFq6⟩

/-- A small local G1 point. -/
def smallLocalG1 : G1Affine := ⟨zeroBigInt, zeroBigInt, false⟩

/-- A small local G2 point. -/
def smallLocalG2 : G2Affine := ⟨zeroLocalFq2, zeroLocalFq2, false⟩

/-- A prepared verifying key whose `gamma_abc_g1` is empty, so *no*
public-input count can satisfy `len + 1 = 0`. -/
def emptyIcPvk : PreparedVerifyingKey :=
  ⟨⟨smallLocalG1, smallLocalG2, smallLocalG2, smallLocalG2, []⟩, zeroLocalFq12,
    ⟨[], false⟩, ⟨[], false⟩⟩

/-- A decoded proof artifact over small decimals. -/
def smallProofJson : CircomProofJson :=
  ⟨smallG1Strs, smallG2Strs, smallG1Strs, "groth16", "bn128"⟩

/-! # Theorems

First the supporting lemmas (machine integers, Montgomery representation,
parsing, codec combinators), then one named theorem per claim with its
witness or counterexample. -/

/-! ## Machine-integer and limb lemmas -/

theorem uint64_toNat_ofNat (n : Nat) : (UInt64.ofNat n).toNat = n % 2 ^ 64 := rfl

theorem uint8_toNat_ofNat (n : Nat) : (UInt8.ofNat n).toNat = n % 2 ^ 8 := rfl

theorem uint64_toNat_lt (x : UInt64) : x.toNat < 2 ^ 64 := x.val.isLt

theorem uint8_toNat_lt (x : UInt8) : x.toNat < 2 ^ 8 := x.val.isLt

theorem uint64_ofNat_toNat (x : UInt64) : UInt64.ofNat x.toNat = x := by
  apply UInt64.ext
  rw [uint64_toNat_ofNat]
  exact Nat.mod_eq_of_lt (uint64_toNat_lt x)

theorem uint8_ofNat_toNat (x : UInt8) : UInt8.ofNat x.toNat = x := by
  apply UInt8.ext
  rw [uint8_toNat_ofNat]
  exact Nat.mod_eq_of_lt (uint8_toNat_lt x)

theorem limbsNat_natToLimbs {n : Nat} (h : n < 2 ^ 256) : (natToLimbs n).toNat = n := by
  simp only [natToLimbs, Limbs4.toNat, uint64_toNat_ofNat]
  omega

/-! ## Montgomery-representation lemmas -/

theorem montConstCancel : ((2 ^ 256 : Nat) : ZMod pBase) * (montRinv : ZMod pBase) = 1 := by
  decide

theorem valZ_montFq (v : ZMod pBase) : (montFq v).valZ = v := by
  unfold montFq Ark.Fq.valZ
  have hlt : (v.val * 2 ^ 256) % pBase < 2 ^ 256 :=
    lt_of_lt_of_le (Nat.mod_lt _ (by decide)) (by decide)
  rw [limbsNat_natToLimbs hlt, ZMod.natCast_mod, Nat.cast_mul, mul_assoc, montConstCancel,
    mul_one, ZMod.natCast_rightInverse v]

theorem montFq_inj {v w : ZMod pBase} (h : montFq v = montFq w) : v = w := by
  have h2 := congrArg Ark.Fq.valZ h
  rwa [valZ_montFq, valZ_montFq] at h2

theorem montFq_mul (a b : ZMod pBase) : (montFq a).mul (montFq b) = montFq (a * b) := by
  unfold Ark.Fq.mul
  rw [valZ_montFq, valZ_montFq]

theorem montFq_square (a : ZMod pBase) : (montFq a).square = montFq (a * a) := by
  unfold Ark.Fq.square
  rw [valZ_montFq]

theorem montFq_inv (a : ZMod pBase) : (montFq a).inv = montFq a⁻¹ := by
  unfold Ark.Fq.inv
  rw [valZ_montFq]

theorem isZero_montFq (v : ZMod pBase) : (montFq v).isZero = decide (v = 0) := by
  unfold Ark.Fq.isZero
  exact decide_eq_decide.mpr ⟨montFq_inj, fun h => by rw [h]⟩

theorem isOne_montFq (v : ZMod pBase) : (montFq v).isOne = decide (v = 1) := by
  unfold Ark.Fq.isOne
  exact decide_eq_decide.mpr ⟨montFq_inj, fun h => by rw [h]⟩

/-! ## C3: G1 parsing and projective-to-affine normalization -/

/-- C3 (amended): for three decimal coordinate strings parsing to field values
`(x, y, z)`, `g1_from_str` returns: for `z = 0` the point at infinity with
stored coordinates `x = 0` and `y = 1` (not `y = 0` as claimed); for `z = 1`
the coordinates unchanged; and for any other `z` the Jacobian normalization
`x · z⁻², y · z⁻³` (not a division by `z` as claimed). -/
theorem g1_from_str_normalization (sx sy sz : String) (x y z : ZMod pBase)
    (hx : fpFromStr pBase sx = some x) (hy : fpFromStr pBase sy = some y)
    (hz : fpFromStr pBase sz = some z) :
    g1_from_str [sx, sy, sz] =
      some (if z = 0 then ⟨montFq 0, montFq 1, true⟩
        else if z = 1 then ⟨montFq x, montFq y, false⟩
        else ⟨montFq (x * (z⁻¹ * z⁻¹)), montFq (y * (z⁻¹ * z⁻¹ * z⁻¹)), false⟩) := by
  unfold g1_from_str fq_from_str
  simp only [List.getElem?_cons_zero, List.getElem?_cons_succ, hx, hy, hz, Option.map_some',
    Option.bind_eq_bind, Option.some_bind]
  unfold g1ProjToAffine
  rw [isZero_montFq, isOne_montFq]
  by_cases h0 : z = 0
  · simp [h0]
  · by_cases h1 : z = 1
    · simp [h0, h1]
    · simp [h0, h1, montFq_inv, montFq_square, montFq_mul]

/-- C3 counterexample: the projective triple `("0", "0", "0")` parses to the
point at infinity whose stored `y` is the representation of one, not of zero,
refuting the claimed `x = 0 and y = 0` mapping. -/
theorem g1_from_str_inf_counterexample :
    g1_from_str ["0", "0", "0"] = some ⟨montFq 0, montFq 1, true⟩ ∧
      montFq 1 ≠ montFq 0 := by
  constructor
  · decide
  · decide

/-- C3 witness: the amended theorem applied at `("4", "9", "2")`. -/
theorem g1_from_str_normalization_witness :
    fpFromStr pBase "4" = some 4 ∧ fpFromStr pBase "9" = some 9 ∧
      fpFromStr pBase "2" = some 2 ∧
      g1_from_str ["4", "9", "2"] =
        some (if (2 : ZMod pBase) = 0 then ⟨montFq 0, montFq 1, true⟩
          else if (2 : ZMod pBase) = 1 then ⟨montFq 4, montFq 9, false⟩
          else ⟨montFq (4 * ((2 : ZMod pBase)⁻¹ * (2 : ZMod pBase)⁻¹)),
            montFq (9 * ((2 : ZMod pBase)⁻¹ * (2 : ZMod pBase)⁻¹ * (2 : ZMod pBase)⁻¹)),
            false⟩) := by
  have h1 : fpFromStr pBase "4" = some 4 := by decide
  have h2 : fpFromStr pBase "9" = some 9 := by decide
  have h3 : fpFromStr pBase "2" = some 2 := by decide
  exact ⟨h1, h2, h3, g1_from_str_normalization "4" "9" "2" 4 9 2 h1 h2 h3⟩

/-! ## C2: decimal-to-field conversion of public inputs -/

theorem charEqOfToNat {a b : Char} (h : a.toNat = b.toNat) : a = b :=
  Char.ext (UInt32.ext h)

theorem stringNotEmptyOfCons {s : String} {c : Char} {cs : List Char}
    (h : s.data = c :: cs) : s.isEmpty = false := by
  cases s
  simp_all [String.isEmpty, String.Pos.ext_iff]
  have := Char.utf8Size_pos c
  omega

theorem stringEmptyOfNil {s : String} (h : s.data = []) : s.isEmpty = true := by
  cases s
  simp_all [String.isEmpty]

theorem fpFromStrGo_nonDigit (p : Nat) {cs : List Char} (first : Bool) (res : ZMod p)
    (h : ∃ c ∈ cs, ¬c.isDigit) : fpFromStrGo p cs first res = none := by
  induction cs generalizing first res with
  | nil => simp at h
  | cons c rest ih =>
    obtain ⟨d, hd, hnd⟩ := h
    by_cases hc : c.isDigit
    · rcases List.mem_cons.mp hd with rfl | hdrest
      · exact absurd hc hnd
      · simp only [fpFromStrGo, charDigit, hc, if_true]
        split
        · rfl
        · exact ih false _ ⟨d, hdrest, hnd⟩
    · simp only [fpFromStrGo, charDigit, hc, Bool.false_eq_true, if_false]

theorem fpFromStrGo_digits (p : Nat) {cs : List Char} (res : ZMod p)
    (h : ∀ c ∈ cs, c.isDigit) :
    fpFromStrGo p cs false res =
      some (cs.foldl (fun a c => a * 10 + ((c.toNat - 48 : Nat) : ZMod p)) res) := by
  induction cs generalizing res with
  | nil => rfl
  | cons c rest ih =>
    have hc : c.isDigit := h c (by simp)
    simp only [fpFromStrGo, charDigit, hc, if_true, Bool.false_and, Bool.false_eq_true,
      if_false, List.foldl_cons]
    exact ih _ fun d hd => h d (by simp [hd])

theorem decVal_cast (p : Nat) (cs : List Char) (a : Nat) :
    ((cs.foldl (fun x c => 10 * x + (c.toNat - 48)) a : Nat) : ZMod p) =
      cs.foldl (fun x c => x * 10 + ((c.toNat - 48 : Nat) : ZMod p)) (a : ZMod p) := by
  induction cs generalizing a with
  | nil => rfl
  | cons c rest ih =>
    simp only [List.foldl_cons]
    rw [ih]
    congr 1
    push_cast
    ring

/-- C2 (amended): `fr_from_str` — the conversion applied to every public
input — panics (modelled `none`) on any string containing a non-digit (there
is no reported `MalformedNumber` error value in the code; sign characters are
indeed not accepted).  A digit string is reduced modulo the scalar modulus
only when it is `"0"` or has no leading zero; the empty string and digit
strings with a leading zero also panic, contrary to the claim that every
digit string converts. -/
theorem fr_from_str_spec (s : String) :
    ((∃ c ∈ s.data, ¬c.isDigit) → fr_from_str s = none) ∧
    (s = "0" → fr_from_str s = some 0) ∧
    ((∀ c ∈ s.data, c.isDigit) → ∀ c0 cs, s.data = c0 :: cs → c0 ≠ '0' →
      fr_from_str s = some ((decVal s.data : Nat) : ZMod rScalar)) ∧
    (s.data = [] → fr_from_str s = none) ∧
    (∀ cs, s.data = '0' :: cs → cs ≠ [] → fr_from_str s = none) := by
  refine ⟨?_, ?_, ?_, ?_, ?_⟩
  · rintro ⟨c, hc, hnd⟩
    cases hdata : s.data with
    | nil => rw [hdata] at hc; simp at hc
    | cons c0 cs =>
      by_cases hs0 : s = "0"
      · subst hs0
        simp only [show ("0" : String).data = ['0'] from rfl, List.mem_singleton] at hc
        subst hc
        exact absurd (by decide) hnd
      · unfold fr_from_str fpFromStr
        rw [stringNotEmptyOfCons hdata]
        simp only [Bool.false_eq_true, if_false, hs0]
        exact fpFromStrGo_nonDigit rScalar true 0 ⟨c, hc, hnd⟩
  · rintro rfl
    decide
  · intro hall c0 cs hdata hne
    by_cases hs0 : s = "0"
    · subst hs0
      simp only [show ("0" : String).data = ['0'] from rfl] at hdata
      cases hdata
      exact absurd rfl hne
    · have hc0 : c0.isDigit := hall c0 (by rw [hdata]; simp)
      have h48 : 48 ≤ c0.toNat ∧ c0.toNat ≤ 57 := by
        simp [Char.isDigit] at hc0
        exact hc0
      have hne48 : c0.toNat ≠ 48 := fun h => hne (charEqOfToNat (by rw [h]; rfl))
      unfold fr_from_str fpFromStr
      rw [stringNotEmptyOfCons hdata]
      simp only [Bool.false_eq_true, if_false, hs0]
      rw [show s.toList = s.data from rfl, hdata]
      have hd0 : (c0.toNat - 48 == 0) = false := by
        simp only [beq_eq_false_iff_ne, ne_eq]
        omega
      simp only [fpFromStrGo, charDigit, hc0, if_true, Bool.true_and, hd0,
        Bool.false_eq_true, if_false]
      rw [fpFromStrGo_digits rScalar _ fun d hd => hall d (by rw [hdata]; simp [hd])]
      unfold decVal
      rw [decVal_cast]
      simp
  · intro hdata
    unfold fr_from_str fpFromStr
    rw [stringEmptyOfNil hdata]
    simp
  · intro cs hdata hne
    have hs0 : s ≠ "0" := by
      intro he
      subst he
      simp only [show ("0" : String).data = ['0'] from rfl] at hdata
      cases hdata
      exact absurd rfl hne
    unfold fr_from_str fpFromStr
    rw [stringNotEmptyOfCons hdata]
    simp only [Bool.false_eq_true, if_false, hs0]
    rw [show s.toList = s.data from rfl, hdata]
    simp [fpFromStrGo, charDigit]

/-- C2 counterexample: `"01"` consists solely of digits, yet the conversion
panics (`none`) instead of returning `1`. -/
theorem fr_from_str_counterexample :
    ("01".data.all Char.isDigit) = true ∧ fr_from_str "01" = none := by
  exact ⟨by decide, by decide⟩

/-- C2 witness: the amended theorem at `"-1"` (sign rejected, panic) and
`"12"` (parsed to its value). -/
theorem fr_from_str_spec_witness :
    fr_from_str "-1" = none ∧
      fr_from_str "12" = some ((decVal "12".data : Nat) : ZMod rScalar) := by
  refine ⟨(fr_from_str_spec "-1").1 ⟨'-', by decide, by decide⟩, ?_⟩
  exact (fr_from_str_spec "12").2.2.1 (by decide) '1' ['2'] rfl (by decide)

/-! ## C1: public-input arity mismatch in `verify_proof` -/

theorem mapM_some_length {α β} {f : α → Option β} :
    ∀ {l : List α} {l2 : List β}, l.mapM f = some l2 → l2.length = l.length := by
  intro l
  induction l with
  | nil =>
    intro l2 h
    simp only [List.mapM_nil, pure, Option.some.injEq] at h
    subst h
    rfl
  | cons a t ih =>
    intro l2 h
    rw [List.mapM_cons] at h
    cases hfa : f a with
    | none => rw [hfa] at h; simp at h
    | some b =>
      rw [hfa] at h
      simp only [Option.bind_eq_bind, Option.some_bind, bind, Option.bind_eq_some, pure,
        Option.some.injEq] at h
      obtain ⟨bs, hbs, rfl⟩ := h
      simp [ih hbs]

/-- C1 (amended): whenever the proof and public-input strings decode and the
decoded input list has `n` with `n + 1 ≠ pvk.vk.gamma_abc_g1.len()`,
`verify_proof` panics — `ark_groth16::verify_proof` reports
`Err(MalformedVerifyingKey)` and the repository `.unwrap()`s it — for every
length, including 0 and oversized.  No reported error value (there is no
`PublicInputCountMismatch` variant; the only reported errors are the two JSON
`ParseError`s) is ever produced for a count mismatch. -/
theorem verify_proof_count_mismatch_panics
    (parseProof : String → Option CircomProofJson)
    (parseInputs : String → Option (List String))
    (pairingCheck : Ark.PreparedVerifyingKey → Ark.Proof → List (ZMod rScalar) → Option Bool)
    (pvk : PreparedVerifyingKey) (ps inp : String) (proofJson : CircomProofJson)
    (l : List String)
    (hp : parseProof ps = some proofJson) (hi : parseInputs inp = some l)
    (hmm : l.length + 1 ≠ pvk.vk.gamma_abc_g1.length) :
    verify_proof parseProof parseInputs pairingCheck pvk ps inp = .crash := by
  unfold verify_proof
  rw [hp, hi]
  show (match l.mapM fr_from_str with
    | none => (Outcome.crash : Outcome Bool)
    | some arkPubInputs =>
      match proofJsonToArkProof proofJson with
      | none => Outcome.crash
      | some arkProof =>
        match arkVerifyProof pairingCheck pvk.toArk arkProof arkPubInputs with
        | .error _ => Outcome.crash
        | .ok res => Outcome.ok res) = Outcome.crash
  cases hm : l.mapM fr_from_str with
  | none => rfl
  | some arkInputs =>
    cases hpc : proofJsonToArkProof proofJson with
    | none => rfl
    | some arkProof =>
      have hlen : arkInputs.length = l.length := mapM_some_length hm
      have hglen : pvk.toArk.vk.gamma_abc_g1.length = pvk.vk.gamma_abc_g1.length := by
        simp [PreparedVerifyingKey.toArk, VerifyingKey.toArk]
      have hcond : arkInputs.length + 1 ≠ pvk.toArk.vk.gamma_abc_g1.length := by
        rw [hlen, hglen]
        exact hmm
      show (match arkVerifyProof pairingCheck pvk.toArk arkProof arkInputs with
        | .error _ => (Outcome.crash : Outcome Bool)
        | .ok res => Outcome.ok res) = Outcome.crash
      unfold arkVerifyProof
      rw [if_pos hcond]

/-- C1 counterexample: a concrete mismatch (1 input, empty `gamma_abc_g1`)
produces the panic outcome, not a reported error value as the claim states. -/
theorem verify_proof_mismatch_counterexample :
    verify_proof (fun _ => some smallProofJson) (fun _ => some ["1"])
        (fun _ _ _ => some true) emptyIcPvk "proof" "inputs" = .crash ∧
      (verify_proof (fun _ => some smallProofJson) (fun _ => some ["1"])
        (fun _ _ _ => some true) emptyIcPvk "proof" "inputs").isReportedErr = false := by
  exact ⟨by decide, by decide⟩

/-- C1 witness: the amended theorem at the concrete mismatch above. -/
theorem verify_proof_count_mismatch_panics_witness :
    (fun _ : String => some smallProofJson) "proof" = some smallProofJson ∧
      (fun _ : String => some ["1"]) "inputs" = some ["1"] ∧
      (["1"] : List String).length + 1 ≠ emptyIcPvk.vk.gamma_abc_g1.length ∧
      verify_proof (fun _ => some smallProofJson) (fun _ => some ["1"])
        (fun _ _ _ => some true) emptyIcPvk "proof" "inputs" = .crash := by
  refine ⟨rfl, rfl, by decide, ?_⟩
  exact verify_proof_count_mismatch_panics _ _ _ _ _ _ smallProofJson ["1"] rfl rfl (by decide)

/-! ## C10 and C4: the local/arkworks conversions are mutually inverse -/

theorem list_map_roundtrip {α β} {f : α → β} {g : β → α} (h : ∀ x, g (f x) = x)
    (l : List α) : (l.map f).map g = l := by
  rw [List.map_map]
  induction l with
  | nil => rfl
  | cons a t ih => simp [h, ih]

theorem g2Prepared_fromArk_toArk (g : G2Prepared) : G2Prepared.fromArk g.toArk = g := by
  cases g with
  | mk coeffs inf =>
    simp only [G2Prepared.toArk, G2Prepared.fromArk, G2Prepared.mk.injEq, and_true]
    exact list_map_roundtrip (fun t => rfl) coeffs

theorem g2Prepared_toArk_fromArk (g : Ark.G2Prepared) : (G2Prepared.fromArk g).toArk = g := by
  cases g with
  | mk coeffs inf =>
    simp only [G2Prepared.toArk, G2Prepared.fromArk, Ark.G2Prepared.mk.injEq, and_true]
    exact list_map_roundtrip (fun t => rfl) coeffs

theorem vk_fromArk_toArk (v : VerifyingKey) : VerifyingKey.fromArk v.toArk = v := by
  cases v with
  | mk a b g d abc =>
    simp only [VerifyingKey.toArk, VerifyingKey.fromArk, VerifyingKey.mk.injEq]
    exact ⟨rfl, rfl, rfl, rfl, list_map_roundtrip (fun t => rfl) abc⟩

theorem vk_toArk_fromArk (v : Ark.VerifyingKey) : (VerifyingKey.fromArk v).toArk = v := by
  cases v with
  | mk a b g d abc =>
    simp only [VerifyingKey.toArk, VerifyingKey.fromArk, Ark.VerifyingKey.mk.injEq]
    exact ⟨rfl, rfl, rfl, rfl, list_map_roundtrip (fun t => rfl) abc⟩

theorem pvk_fromArk_toArk (p : PreparedVerifyingKey) :
    PreparedVerifyingKey.fromArk p.toArk = p := by
  cases p with
  | mk vk ab gpc dpc =>
    simp only [PreparedVerifyingKey.toArk, PreparedVerifyingKey.fromArk,
      PreparedVerifyingKey.mk.injEq]
    exact ⟨vk_fromArk_toArk vk, rfl, g2Prepared_fromArk_toArk gpc, g2Prepared_fromArk_toArk dpc⟩

theorem pvk_toArk_fromArk (p : Ark.PreparedVerifyingKey) :
    (PreparedVerifyingKey.fromArk p).toArk = p := by
  cases p with
  | mk vk ab gpc dpc =>
    simp only [PreparedVerifyingKey.toArk, PreparedVerifyingKey.fromArk,
      Ark.PreparedVerifyingKey.mk.injEq]
    exact ⟨vk_toArk_fromArk vk, rfl, g2Prepared_toArk_fromArk gpc, g2Prepared_toArk_fromArk dpc⟩

/-- C10: for every listed wrapper type, the local-to-arkworks conversion and
its inverse compose to the identity in both directions — the two
representations are in bijection, with no information loss (the conversions
are raw limb repacks, so this holds for every limb pattern, canonical or
not). -/
theorem conversions_bijective :
    (∀ x : BigInteger256, BigInteger256.fromArk x.toArk = x) ∧
    (∀ x : Ark.BigInteger256, (BigInteger256.fromArk x).toArk = x) ∧
    (∀ x : Fq, Fq.fromArk x.toArk = x) ∧
    (∀ x : Ark.Fq, (Fq.fromArk x).toArk = x) ∧
    (∀ x : Fq2, Fq2.fromArk x.toArk = x) ∧
    (∀ x : Ark.Fq2, (Fq2.fromArk x).toArk = x) ∧
    (∀ x : Fq6, Fq6.fromArk x.toArk = x) ∧
    (∀ x : Ark.Fq6, (Fq6.fromArk x).toArk = x) ∧
    (∀ x : Fq12, Fq12.fromArk x.toArk = x) ∧
    (∀ x : Ark.Fq12, (Fq12.fromArk x).toArk = x) ∧
    (∀ x : G1Affine, G1Affine.fromArk x.toArk = x) ∧
    (∀ x : Ark.G1Affine, (G1Affine.fromArk x).toArk = x) ∧
    (∀ x : G2Affine, G2Affine.fromArk x.toArk = x) ∧
    (∀ x : Ark.G2Affine, (G2Affine.fromArk x).toArk = x) ∧
    (∀ x : G2Prepared, G2Prepared.fromArk x.toArk = x) ∧
    (∀ x : Ark.G2Prepared, (G2Prepared.fromArk x).toArk = x) ∧
    (∀ x : VerifyingKey, VerifyingKey.fromArk x.toArk = x) ∧
    (∀ x : Ark.VerifyingKey, (VerifyingKey.fromArk x).toArk = x) ∧
    (∀ x : PreparedVerifyingKey, PreparedVerifyingKey.fromArk x.toArk = x) ∧
    (∀ x : Ark.PreparedVerifyingKey, (PreparedVerifyingKey.fromArk x).toArk = x) :=
  ⟨fun _ => rfl, fun _ => rfl, fun _ => rfl, fun _ => rfl, fun _ => rfl, fun _ => rfl,
    fun _ => rfl, fun _ => rfl, fun _ => rfl, fun _ => rfl, fun _ => rfl, fun _ => rfl,
    fun _ => rfl, fun _ => rfl, g2Prepared_fromArk_toArk, g2Prepared_toArk_fromArk,
    vk_fromArk_toArk, vk_toArk_fromArk, pvk_fromArk_toArk, pvk_toArk_fromArk⟩

/-- C4: `get_prepared_verifying_key` is total and pure (it is a plain
function of its inputs), its result embeds `vk` unchanged (the conversion
round-trip is the identity), its `alpha_g1_beta_g2` field is the pairing of
`vk.alpha_g1` and `vk.beta_g2`, and its `gamma_g2_neg_pc` / `delta_g2_neg_pc`
fields are the Miller-loop precomputation of the negated `gamma_g2` /
`delta_g2`, for every abstract pairing engine. -/
theorem get_prepared_verifying_key_spec
    (pairing : Ark.G1Affine → Ark.G2Affine → Ark.Fq12)
    (negG2 : Ark.G2Affine → Ark.G2Affine)
    (g2Precompute : Ark.G2Affine → Ark.G2Prepared)
    (vk : VerifyingKey) :
    (get_prepared_verifying_key pairing negG2 g2Precompute vk).vk = vk ∧
    (get_prepared_verifying_key pairing negG2 g2Precompute vk).alpha_g1_beta_g2 =
      Fq12.fromArk (pairing vk.alpha_g1.toArk vk.beta_g2.toArk) ∧
    (get_prepared_verifying_key pairing negG2 g2Precompute vk).gamma_g2_neg_pc =
      G2Prepared.fromArk (g2Precompute (negG2 vk.gamma_g2.toArk)) ∧
    (get_prepared_verifying_key pairing negG2 g2Precompute vk).delta_g2_neg_pc =
      G2Prepared.fromArk (g2Precompute (negG2 vk.delta_g2.toArk)) :=
  ⟨vk_fromArk_toArk vk, rfl, rfl, rfl⟩

/-! ## C7: the pinned `alpha_g1` limbs of the example 21-input key -/

/-- C7: parsing the example groth16/bn128 verifying key with 21 public inputs
and preparing it yields an `alpha_g1` whose `x` limbs are exactly
`[129941079445278231, 14986904513597369283, 4385962745611939561,
498495035870568143]`, whose `y` limbs are `[3551982070992374558,
4387704605030068278, 1260785428361773688, 452138810654549394]`, and whose
infinity flag is `false` — pinning the decimal-to-limb (Montgomery-form)
conversion for that key, independently of the pairing engine. -/
theorem example_key_alpha_limbs
    (pairing : Ark.G1Affine → Ark.G2Affine → Ark.Fq12)
    (negG2 : Ark.G2Affine → Ark.G2Affine)
    (g2Precompute : Ark.G2Affine → Ark.G2Prepared) :
    (near_get_prepared_verifying_key pairing negG2 g2Precompute exampleVKeyJson).map
        (fun pvk => pvk.vk.alpha_g1) =
      some ⟨exampleAlphaX, exampleAlphaY, false⟩ := by
  set_option maxRecDepth 100000 in rfl

/-! ## C6: noninterference of the `protocol`, `curve` and `nPublic` values -/

theorem parseVkArrays_congr {f1 f2 : List (String × Json)}
    (h : ∀ k, k ≠ "protocol" → k ≠ "curve" → k ≠ "nPublic" →
      jLookup k f1 = jLookup k f2) :
    parseVkArrays f1 = parseVkArrays f2 := by
  unfold parseVkArrays
  rw [h "vk_alpha_1" (by decide) (by decide) (by decide),
    h "vk_beta_2" (by decide) (by decide) (by decide),
    h "vk_gamma_2" (by decide) (by decide) (by decide),
    h "vk_delta_2" (by decide) (by decide) (by decide),
    h "vk_alphabeta_12" (by decide) (by decide) (by decide),
    h "IC" (by decide) (by decide) (by decide)]

/-- C6: two verification-key artifacts that differ only in the values of
`protocol`, `curve` and `nPublic` (all three present with the schema's
string/string/integer shapes) parse with the same success/failure outcome,
and the composition with the key conversion yields identical results — those
three recorded fields never cause rejection and never influence the converted
`VerifyingKey`. -/
theorem vk_json_noninterference (f1 f2 : List (String × Json))
    (h : ∀ k, k ≠ "protocol" → k ≠ "curve" → k ≠ "nPublic" →
      jLookup k f1 = jLookup k f2)
    (hp1 : ∃ s, jLookup "protocol" f1 = some (.str s))
    (hp2 : ∃ s, jLookup "protocol" f2 = some (.str s))
    (hc1 : ∃ s, jLookup "curve" f1 = some (.str s))
    (hc2 : ∃ s, jLookup "curve" f2 = some (.str s))
    (hn1 : ∃ n, jLookup "nPublic" f1 = some (.num n))
    (hn2 : ∃ n, jLookup "nPublic" f2 = some (.num n)) :
    (parse_verification_key (.obj f1)).isSome =
      (parse_verification_key (.obj f2)).isSome ∧
    (parse_verification_key (.obj f1)).bind vkJsonToVerifyingKey =
      (parse_verification_key (.obj f2)).bind vkJsonToVerifyingKey := by
  obtain ⟨p1, hp1⟩ := hp1
  obtain ⟨p2, hp2⟩ := hp2
  obtain ⟨c1, hc1⟩ := hc1
  obtain ⟨c2, hc2⟩ := hc2
  obtain ⟨n1, hn1⟩ := hn1
  obtain ⟨n2, hn2⟩ := hn2
  have harr := parseVkArrays_congr h
  simp only [parse_verification_key, jObj, hp1, hp2, hc1, hc2, hn1, hn2, jStr, jNum,
    Option.bind_eq_bind, Option.some_bind, harr]
  cases parseVkArrays f2 with
  | none => exact ⟨rfl, rfl⟩
  | some arr => exact ⟨rfl, rfl⟩

/-- C6 witness: the theorem applied to two concrete artifacts differing in
all three recorded values (`groth16`/`bn128`/21 against `plonk`/`bls12381`/7). -/
theorem vk_json_noninterference_witness :
    (parse_verification_key (.obj nonIntfFields1)).isSome =
      (parse_verification_key (.obj nonIntfFields2)).isSome ∧
    (parse_verification_key (.obj nonIntfFields1)).bind vkJsonToVerifyingKey =
      (parse_verification_key (.obj nonIntfFields2)).bind vkJsonToVerifyingKey := by
  apply vk_json_noninterference
  · intro k h1 h2 h3
    simp only [nonIntfFields1, nonIntfFields2, jLookup]
    rw [if_neg (show ¬("protocol" = k) from fun he => h1 he.symm),
      if_neg (show ¬("protocol" = k) from fun he => h1 he.symm),
      if_neg (show ¬("curve" = k) from fun he => h2 he.symm),
      if_neg (show ¬("curve" = k) from fun he => h2 he.symm),
      if_neg (show ¬("nPublic" = k) from fun he => h3 he.symm),
      if_neg (show ¬("nPublic" = k) from fun he => h3 he.symm)]
  · exact ⟨"groth16", rfl⟩
  · exact ⟨"plonk", rfl⟩
  · exact ⟨"bn128", rfl⟩
  · exact ⟨"bls12381", rfl⟩
  · exact ⟨21, rfl⟩
  · exact ⟨7, rfl⟩

/-! ## C8: `gamma_abc_g1` length tracks `IC`, never `nPublic` -/

/-- C8: every successful conversion gives `gamma_abc_g1` exactly the length of
the JSON `IC` array; the declared `nPublic` is never consulted (changing it
never changes the conversion result); and the concrete key whose `IC` length
(1) differs from `nPublic + 1` (6) still converts without error. -/
theorem gamma_abc_length_spec :
    (∀ j : VerificationKeyJson,
      (vkJsonToVerifyingKey j).elim True fun vk =>
        vk.gamma_abc_g1.length = j.ic.length) ∧
    (∀ j : VerificationKeyJson, ∀ n : Nat,
      vkJsonToVerifyingKey { j with num_public := n } = vkJsonToVerifyingKey j) ∧
    (vkJsonToVerifyingKey smallVKeyJson).isSome = true ∧
    smallVKeyJson.ic.length ≠ smallVKeyJson.num_public + 1 := by
  refine ⟨?_, fun j n => rfl, by decide, by decide⟩
  intro j
  cases hj : vkJsonToVerifyingKey j with
  | none => exact trivial
  | some vk =>
    simp only [Option.elim]
    simp only [vkJsonToVerifyingKey, Option.bind_eq_bind, bind, Option.bind_eq_some,
      Option.some.injEq] at hj
    obtain ⟨alpha, ha, beta, hb, gamma, hg, delta, hd, abc, habc, hvk⟩ := hj
    subst hvk
    exact mapM_some_length habc

/-! ## C9: arity preconditions of the point conversions -/

theorem rowFields {r : List String} (h2 : 2 ≤ r.length)
    (hs : ∀ s ∈ r.take 2, (fpFromStr pBase s).isSome) :
    ∃ a b x y, r[0]? = some a ∧ r[1]? = some b ∧
      fpFromStr pBase a = some x ∧ fpFromStr pBase b = some y := by
  cases r with
  | nil => simp at h2
  | cons a t =>
    cases t with
    | nil => simp at h2
    | cons b t2 =>
      obtain ⟨x, hx⟩ := Option.isSome_iff_exists.mp (hs a (by simp))
      obtain ⟨y, hy⟩ := Option.isSome_iff_exists.mp (hs b (by simp))
      exact ⟨a, b, x, y, by simp, by simp, hx, hy⟩

theorem g1_from_str_total {v : List String} (h : g1StrsOk v) : (g1_from_str v).isSome := by
  obtain ⟨hlen, hok⟩ := h
  cases v with
  | nil => simp at hlen
  | cons s0 t0 =>
    cases t0 with
    | nil => simp at hlen
    | cons s1 t1 =>
      cases t1 with
      | nil => simp at hlen
      | cons s2 rest =>
        obtain ⟨x0, hx0⟩ := Option.isSome_iff_exists.mp (hok s0 (by simp))
        obtain ⟨x1, hx1⟩ := Option.isSome_iff_exists.mp (hok s1 (by simp))
        obtain ⟨x2, hx2⟩ := Option.isSome_iff_exists.mp (hok s2 (by simp))
        simp [g1_from_str, fq_from_str, hx0, hx1, hx2]

theorem g2_from_str_total {v : List (List String)} (h : g2StrsOk v) :
    (g2_from_str v).isSome := by
  obtain ⟨hlen, hok⟩ := h
  cases v with
  | nil => simp at hlen
  | cons r0 t0 =>
    cases t0 with
    | nil => simp at hlen
    | cons r1 t1 =>
      cases t1 with
      | nil => simp at hlen
      | cons r2 rest =>
        obtain ⟨a0, b0, x0, y0, ha0, hb0, hx0, hy0⟩ :=
          rowFields (hok r0 (by simp)).1 (hok r0 (by simp)).2
        obtain ⟨a1, b1, x1, y1, ha1, hb1, hx1, hy1⟩ :=
          rowFields (hok r1 (by simp)).1 (hok r1 (by simp)).2
        obtain ⟨a2, b2, x2, y2, ha2, hb2, hx2, hy2⟩ :=
          rowFields (hok r2 (by simp)).1 (hok r2 (by simp)).2
        simp [g2_from_str, fq_from_str, ha0, hb0, hx0, hy0, ha1, hb1, hx1, hy1,
          ha2, hb2, hx2, hy2]

theorem mapM_isSome {α β} {f : α → Option β} :
    ∀ {l : List α}, (∀ a ∈ l, (f a).isSome) → (l.mapM f).isSome := by
  intro l
  induction l with
  | nil => intro _; rfl
  | cons a t ih =>
    intro h
    obtain ⟨b, hb⟩ := Option.isSome_iff_exists.mp (h a (by simp))
    obtain ⟨bs, hbs⟩ := Option.isSome_iff_exists.mp (ih fun x hx => h x (by simp [hx]))
    rw [List.mapM_cons, hb, hbs]
    rfl

/-- C9: under the arity-and-digits precondition (each G1 array at least 3
valid decimals, each G2 array at least 3 rows of at least 2 valid decimals)
the key and proof conversions are total; and the JSON layer imposes no arity
check, so schema-valid artifacts with shorter arrays parse successfully but
drive the conversion into its out-of-bounds-indexing panic (`none`). -/
theorem conversion_arity_spec :
    (∀ j : VerificationKeyJson, g1StrsOk j.vk_alpha_1 → g2StrsOk j.vk_beta_2 →
      g2StrsOk j.vk_gamma_2 → g2StrsOk j.vk_delta_2 → (∀ e ∈ j.ic, g1StrsOk e) →
      (vkJsonToVerifyingKey j).isSome) ∧
    (∀ p : CircomProofJson, g1StrsOk p.pi_a → g2StrsOk p.pi_b → g1StrsOk p.pi_c →
      (proofJsonToArkProof p).isSome) ∧
    (parse_verification_key (.obj shortVKeyJsonFields)).isSome = true ∧
    (parse_verification_key (.obj shortVKeyJsonFields)).bind vkJsonToVerifyingKey = none ∧
    (parse_circom_proof (.obj shortProofJsonFields)).isSome = true ∧
    (parse_circom_proof (.obj shortProofJsonFields)).bind proofJsonToArkProof = none := by
  refine ⟨?_, ?_, by decide, by decide, by decide, by decide⟩
  · intro j ha hb hg hd hic
    obtain ⟨alpha, hA⟩ := Option.isSome_iff_exists.mp (g1_from_str_total ha)
    obtain ⟨beta, hB⟩ := Option.isSome_iff_exists.mp (g2_from_str_total hb)
    obtain ⟨gamma, hG⟩ := Option.isSome_iff_exists.mp (g2_from_str_total hg)
    obtain ⟨delta, hD⟩ := Option.isSome_iff_exists.mp (g2_from_str_total hd)
    have habc : (j.ic.mapM fun x => (g1_from_str x).map G1Affine.fromArk).isSome :=
      mapM_isSome fun e he => by
        obtain ⟨g, hgg⟩ := Option.isSome_iff_exists.mp (g1_from_str_total (hic e he))
        simp [hgg]
    obtain ⟨abc, hABC⟩ := Option.isSome_iff_exists.mp habc
    have hABC2 : List.mapM.loop (fun x => Option.map G1Affine.fromArk (g1_from_str x)) j.ic []
        = some abc := hABC
    simp [vkJsonToVerifyingKey, hA, hB, hG, hD, hABC, hABC2]
  · intro p ha hb hc
    obtain ⟨a, hA⟩ := Option.isSome_iff_exists.mp (g1_from_str_total ha)
    obtain ⟨b, hB⟩ := Option.isSome_iff_exists.mp (g2_from_str_total hb)
    obtain ⟨c, hC⟩ := Option.isSome_iff_exists.mp (g1_from_str_total hc)
    simp [proofJsonToArkProof, hA, hB, hC]

/-- C9 witness: the totality half applied to the small concrete key and
proof. -/
theorem conversion_arity_spec_witness :
    (g1StrsOk smallVKeyJson.vk_alpha_1 ∧ g2StrsOk smallVKeyJson.vk_beta_2 ∧
      g2StrsOk smallVKeyJson.vk_gamma_2 ∧ g2StrsOk smallVKeyJson.vk_delta_2 ∧
      (vkJsonToVerifyingKey smallVKeyJson).isSome) ∧
    (g1StrsOk smallProofJson.pi_a ∧ g2StrsOk smallProofJson.pi_b ∧
      g1StrsOk smallProofJson.pi_c ∧ (proofJsonToArkProof smallProofJson).isSome) := by
  refine ⟨⟨by decide, by decide, by decide, by decide, ?_⟩,
    ⟨by decide, by decide, by decide, ?_⟩⟩
  · exact conversion_arity_spec.1 smallVKeyJson (by decide) (by decide) (by decide)
      (by decide) (by decide)
  · exact conversion_arity_spec.2.1 smallProofJson (by decide) (by decide) (by decide)

/-! ## C5: binary persistence codec — combinator lemmas -/

theorem bind_def {α β} (m : ReadM α) (f : α → ReadM β) : m >>= f = rBind m f := rfl

theorem pure_def {α} (a : α) : (pure a : ReadM α) = rPure a := rfl

theorem leBytesNat_lt : ∀ bs : List UInt8, leBytesNat bs < 256 ^ bs.length := by
  intro bs
  induction bs with
  | nil => simp [leBytesNat]
  | cons b t ih =>
    simp only [leBytesNat, List.length_cons, Nat.pow_succ]
    have hb := uint8_toNat_lt b
    omega

theorem readU64_ser (x : UInt64) (r : List UInt8) : readU64 (serU64 x ++ r) = some (x, r) := by
  have hx := uint64_toNat_lt x
  simp only [serU64, List.cons_append, List.nil_append, readU64, leBytesNat,
    uint8_toNat_ofNat, Option.some.injEq, Prod.mk.injEq]
  refine ⟨?_, trivial⟩
  apply UInt64.ext
  rw [uint64_toNat_ofNat]
  omega

theorem readU32_ser {n : Nat} (h : n < 2 ^ 32) (r : List UInt8) :
    readU32 (serU32 n ++ r) = some (n, r) := by
  simp only [serU32, List.cons_append, List.nil_append, readU32, leBytesNat,
    uint8_toNat_ofNat, Option.some.injEq, Prod.mk.injEq]
  exact ⟨by omega, trivial⟩

theorem readBool_ser (b : Bool) (r : List UInt8) : readBool (serBool b ++ r) = some (b, r) := by
  cases b <;> rfl

theorem rBind_exact {α β} {m : ReadM α} {f : α → ReadM β} {b : List UInt8} {y : β}
    {r : List UInt8} (h : rBind m f b = some (y, r)) :
    ∃ a mid, m b = some (a, mid) ∧ f a mid = some (y, r) := by
  unfold rBind at h
  cases hm : m b with
  | none => rw [hm] at h; exact absurd h (by simp)
  | some p =>
    obtain ⟨a, mid⟩ := p
    rw [hm] at h
    exact ⟨a, mid, rfl, h⟩

theorem rPure_exact {α} {a : α} {b : List UInt8} {y : α} {r : List UInt8}
    (h : rPure a b = some (y, r)) : y = a ∧ r = b := by
  unfold rPure at h
  simp only [Option.some.injEq, Prod.mk.injEq] at h
  exact ⟨h.1.symm, h.2.symm⟩

theorem readU64_exact {b : List UInt8} {x : UInt64} {r : List UInt8}
    (h : readU64 b = some (x, r)) : b = serU64 x ++ r := by
  cases b with
  | nil => simp [readU64] at h
  | cons b0 t0 => cases t0 with
  | nil => simp [readU64] at h
  | cons b1 t1 => cases t1 with
  | nil => simp [readU64] at h
  | cons b2 t2 => cases t2 with
  | nil => simp [readU64] at h
  | cons b3 t3 => cases t3 with
  | nil => simp [readU64] at h
  | cons b4 t4 => cases t4 with
  | nil => simp [readU64] at h
  | cons b5 t5 => cases t5 with
  | nil => simp [readU64] at h
  | cons b6 t6 => cases t6 with
  | nil => simp [readU64] at h
  | cons b7 t7 =>
    simp only [readU64, Option.some.injEq, Prod.mk.injEq] at h
    obtain ⟨hx, hr⟩ := h
    subst hx
    subst hr
    have h0 := uint8_toNat_lt b0
    have h1 := uint8_toNat_lt b1
    have h2 := uint8_toNat_lt b2
    have h3 := uint8_toNat_lt b3
    have h4 := uint8_toNat_lt b4
    have h5 := uint8_toNat_lt b5
    have h6 := uint8_toNat_lt b6
    have h7 := uint8_toNat_lt b7
    simp only [serU64, uint64_toNat_ofNat, leBytesNat, List.cons_append, List.nil_append,
      List.cons.injEq]
    refine ⟨?_, ?_, ?_, ?_, ?_, ?_, ?_, ?_, trivial⟩ <;>
      (apply UInt8.ext; rw [uint8_toNat_ofNat]; omega)

theorem readU32_exact {b : List UInt8} {n : Nat} {r : List UInt8}
    (h : readU32 b = some (n, r)) : b = serU32 n ++ r ∧ n < 2 ^ 32 := by
  cases b with
  | nil => simp [readU32] at h
  | cons b0 t0 => cases t0 with
  | nil => simp [readU32] at h
  | cons b1 t1 => cases t1 with
  | nil => simp [readU32] at h
  | cons b2 t2 => cases t2 with
  | nil => simp [readU32] at h
  | cons b3 t3 =>
    simp only [readU32, Option.some.injEq, Prod.mk.injEq] at h
    obtain ⟨hn, hr⟩ := h
    subst hn
    subst hr
    have h0 := uint8_toNat_lt b0
    have h1 := uint8_toNat_lt b1
    have h2 := uint8_toNat_lt b2
    have h3 := uint8_toNat_lt b3
    refine ⟨?_, by simp only [leBytesNat]; omega⟩
    simp only [serU32, leBytesNat, List.cons_append, List.nil_append, List.cons.injEq]
    refine ⟨?_, ?_, ?_, ?_, trivial⟩ <;>
      (apply UInt8.ext; rw [uint8_toNat_ofNat]; omega)

theorem readBool_exact {b : List UInt8} {x : Bool} {r : List UInt8}
    (h : readBool b = some (x, r)) : b = serBool x ++ r := by
  cases b with
  | nil => simp [readBool] at h
  | cons b0 t =>
    by_cases h0 : b0 = 0
    · subst h0
      rw [show readBool (0 :: t) = some (false, t) from rfl] at h
      injection h with hp
      injection hp with hx hr
      subst hx
      subst hr
      rfl
    · by_cases h1 : b0 = 1
      · subst h1
        rw [show readBool (1 :: t) = some (true, t) from rfl] at h
        injection h with hp
        injection hp with hx hr
        subst hx
        subst hr
        rfl
      · have hnone : readBool (b0 :: t) = none := by
          simp [readBool, h0, h1]
        rw [hnone] at h
        exact absurd h (by simp)

theorem tryFromSlice_ser {α} {ser : α → List UInt8} {m : ReadM α}
    (hser : ∀ x r, m (ser x ++ r) = some (x, r)) (x : α) :
    tryFromSlice m (ser x) = some x := by
  unfold tryFromSlice
  rw [← List.append_nil (ser x), hser x []]

theorem tryFromSlice_exact {α} {ser : α → List UInt8} {m : ReadM α}
    (hex : ∀ b x r, m b = some (x, r) → b = ser x ++ r) {b : List UInt8} {x : α}
    (h : tryFromSlice m b = some x) : b = ser x := by
  unfold tryFromSlice at h
  cases hm : m b with
  | none => rw [hm] at h; exact absurd h (by simp)
  | some p =>
    obtain ⟨x2, rest⟩ := p
    rw [hm] at h
    cases rest with
    | nil =>
      simp only [Option.some.injEq] at h
      subst h
      simpa using hex b _ [] hm
    | cons c t => simp at h

/-! ## C5: per-type round-trip lemmas -/

theorem readLimbs_ser (v : Limbs4) (r : List UInt8) : readLimbs (v.ser ++ r) = some (v, r) := by
  obtain ⟨a, b, c, d⟩ := v
  simp only [Limbs4.ser, readLimbs, bind_def, pure_def, rBind, rPure, List.append_assoc,
    readU64_ser]

theorem readBigInteger256_ser (v : BigInteger256) (r : List UInt8) :
    readBigInteger256 (v.ser ++ r) = some (v, r) := by
  obtain ⟨l⟩ := v
  simp only [BigInteger256.ser, readBigInteger256, bind_def, pure_def, rBind, rPure,
    readLimbs_ser]

theorem readFr_ser (v : Fr) (r : List UInt8) : readFr (v.ser ++ r) = some (v, r) := by
  obtain ⟨c0⟩ := v
  simp only [Fr.ser, readFr, bind_def, pure_def, rBind, rPure, readBigInteger256_ser]

theorem readFq_ser (v : Fq) (r : List UInt8) : readFq (v.ser ++ r) = some (v, r) := by
  obtain ⟨c0⟩ := v
  simp only [Fq.ser, readFq, bind_def, pure_def, rBind, rPure, readBigInteger256_ser]

theorem readFq2_ser (v : Fq2) (r : List UInt8) : readFq2 (v.ser ++ r) = some (v, r) := by
  obtain ⟨c0, c1⟩ := v
  simp only [Fq2.ser, readFq2, bind_def, pure_def, rBind, rPure, List.append_assoc,
    readBigInteger256_ser]

theorem readFq6_ser (v : Fq6) (r : List UInt8) : readFq6 (v.ser ++ r) = some (v, r) := by
  obtain ⟨c0, c1, c2⟩ := v
  simp only [Fq6.ser, readFq6, bind_def, pure_def, rBind, rPure, List.append_assoc,
    readFq2_ser]

theorem readFq12_ser (v : Fq12) (r : List UInt8) : readFq12 (v.ser ++ r) = some (v, r) := by
  obtain ⟨c0, c1⟩ := v
  simp only [Fq12.ser, readFq12, bind_def, pure_def, rBind, rPure, List.append_assoc,
    readFq6_ser]

theorem readG1Affine_ser (v : G1Affine) (r : List UInt8) :
    readG1Affine (v.ser ++ r) = some (v, r) := by
  obtain ⟨x, y, inf⟩ := v
  simp only [G1Affine.ser, readG1Affine, bind_def, pure_def, rBind, rPure,
    List.append_assoc, readBigInteger256_ser, readBool_ser]

theorem readG2Affine_ser (v : G2Affine) (r : List UInt8) :
    readG2Affine (v.ser ++ r) = some (v, r) := by
  obtain ⟨x, y, inf⟩ := v
  simp only [G2Affine.ser, readG2Affine, bind_def, pure_def, rBind, rPure,
    List.append_assoc, readFq2_ser, readBool_ser]

theorem readEllCoeff_ser (t : Fq2 × Fq2 × Fq2) (r : List UInt8) :
    readEllCoeff (ellCoeffSer t ++ r) = some (t, r) := by
  obtain ⟨a, b, c⟩ := t
  simp only [ellCoeffSer, readEllCoeff, bind_def, pure_def, rBind, rPure,
    List.append_assoc, readFq2_ser]

theorem readListAux_ser {α} {ser : α → List UInt8} {m : ReadM α}
    (hm : ∀ x r, m (ser x ++ r) = some (x, r)) :
    ∀ (xs : List α) (r : List UInt8),
      readListAux m xs.length ((xs.map ser).flatten ++ r) = some (xs, r) := by
  intro xs
  induction xs with
  | nil => intro r; rfl
  | cons a t ih =>
    intro r
    simp only [List.map_cons, List.flatten_cons, List.length_cons, readListAux, bind_def,
      pure_def, rBind, rPure, List.append_assoc, hm, ih]

theorem readList_ser {α} {ser : α → List UInt8} {m : ReadM α}
    (hm : ∀ x r, m (ser x ++ r) = some (x, r)) (xs : List α) (hlen : xs.length < 2 ^ 32)
    (r : List UInt8) : readList m (serList ser xs ++ r) = some (xs, r) := by
  simp only [serList, readList, bind_def, rBind, List.append_assoc, readU32_ser hlen,
    readListAux_ser hm]

theorem readG2Prepared_ser (g : G2Prepared) (hlen : g.ell_coeffs.length < 2 ^ 32)
    (r : List UInt8) : readG2Prepared (g.ser ++ r) = some (g, r) := by
  obtain ⟨coeffs, inf⟩ := g
  simp only [G2Prepared.ser, readG2Prepared, bind_def, pure_def, rBind, rPure,
    List.append_assoc, readList_ser readEllCoeff_ser coeffs hlen, readBool_ser]

theorem readVerifyingKey_ser (v : VerifyingKey) (hlen : v.gamma_abc_g1.length < 2 ^ 32)
    (r : List UInt8) : readVerifyingKey (v.ser ++ r) = some (v, r) := by
  obtain ⟨a, b2, g2, d2, abc⟩ := v
  simp only [VerifyingKey.ser, readVerifyingKey, bind_def, pure_def, rBind, rPure,
    List.append_assoc, readG1Affine_ser, readG2Affine_ser,
    readList_ser readG1Affine_ser abc hlen]

theorem readPreparedVerifyingKey_ser (p : PreparedVerifyingKey)
    (h1 : p.vk.gamma_abc_g1.length < 2 ^ 32)
    (h2 : p.gamma_g2_neg_pc.ell_coeffs.length < 2 ^ 32)
    (h3 : p.delta_g2_neg_pc.ell_coeffs.length < 2 ^ 32)
    (r : List UInt8) : readPreparedVerifyingKey (p.ser ++ r) = some (p, r) := by
  obtain ⟨vk, ab, gpc, dpc⟩ := p
  simp only [PreparedVerifyingKey.ser, readPreparedVerifyingKey, bind_def, pure_def, rBind,
    rPure, List.append_assoc, readVerifyingKey_ser vk h1, readFq12_ser,
    readG2Prepared_ser gpc h2, readG2Prepared_ser dpc h3]

/-! ## C5: per-type exactness lemmas -/

theorem readLimbs_exact {b : List UInt8} {v : Limbs4} {r : List UInt8}
    (h : readLimbs b = some (v, r)) : b = v.ser ++ r := by
  simp only [readLimbs, bind_def, pure_def] at h
  obtain ⟨a, m1, ha, h⟩ := rBind_exact h
  obtain ⟨b2, m2, hb, h⟩ := rBind_exact h
  obtain ⟨c, m3, hc, h⟩ := rBind_exact h
  obtain ⟨d, m4, hd, h⟩ := rBind_exact h
  obtain ⟨hv, hr⟩ := rPure_exact h
  subst hv
  subst hr
  rw [readU64_exact ha, readU64_exact hb, readU64_exact hc, readU64_exact hd]
  simp [Limbs4.ser, List.append_assoc]

theorem readBigInteger256_exact {b : List UInt8} {v : BigInteger256} {r : List UInt8}
    (h : readBigInteger256 b = some (v, r)) : b = v.ser ++ r := by
  simp only [readBigInteger256, bind_def, pure_def] at h
  obtain ⟨l, m1, hl, h⟩ := rBind_exact h
  obtain ⟨hv, hr⟩ := rPure_exact h
  subst hv
  subst hr
  exact readLimbs_exact hl

theorem readFr_exact {b : List UInt8} {v : Fr} {r : List UInt8}
    (h : readFr b = some (v, r)) : b = v.ser ++ r := by
  simp only [readFr, bind_def, pure_def] at h
  obtain ⟨c0, m1, hc, h⟩ := rBind_exact h
  obtain ⟨hv, hr⟩ := rPure_exact h
  subst hv
  subst hr
  exact readBigInteger256_exact hc

theorem readFq_exact {b : List UInt8} {v : Fq} {r : List UInt8}
    (h : readFq b = some (v, r)) : b = v.ser ++ r := by
  simp only [readFq, bind_def, pure_def] at h
  obtain ⟨c0, m1, hc, h⟩ := rBind_exact h
  obtain ⟨hv, hr⟩ := rPure_exact h
  subst hv
  subst hr
  exact readBigInteger256_exact hc

theorem readFq2_exact {b : List UInt8} {v : Fq2} {r : List UInt8}
    (h : readFq2 b = some (v, r)) : b = v.ser ++ r := by
  simp only [readFq2, bind_def, pure_def] at h
  obtain ⟨c0, m1, h0, h⟩ := rBind_exact h
  obtain ⟨c1, m2, h1, h⟩ := rBind_exact h
  obtain ⟨hv, hr⟩ := rPure_exact h
  subst hv
  subst hr
  rw [readBigInteger256_exact h0, readBigInteger256_exact h1]
  simp [Fq2.ser, List.append_assoc]

theorem readFq6_exact {b : List UInt8} {v : Fq6} {r : List UInt8}
    (h : readFq6 b = some (v, r)) : b = v.ser ++ r := by
  simp only [readFq6, bind_def, pure_def] at h
  obtain ⟨c0, m1, h0, h⟩ := rBind_exact h
  obtain ⟨c1, m2, h1, h⟩ := rBind_exact h
  obtain ⟨c2, m3, h2, h⟩ := rBind_exact h
  obtain ⟨hv, hr⟩ := rPure_exact h
  subst hv
  subst hr
  rw [readFq2_exact h0, readFq2_exact h1, readFq2_exact h2]
  simp [Fq6.ser, List.append_assoc]

theorem readFq12_exact {b : List UInt8} {v : Fq12} {r : List UInt8}
    (h : readFq12 b = some (v, r)) : b = v.ser ++ r := by
  simp only [readFq12, bind_def, pure_def] at h
  obtain ⟨c0, m1, h0, h⟩ := rBind_exact h
  obtain ⟨c1, m2, h1, h⟩ := rBind_exact h
  obtain ⟨hv, hr⟩ := rPure_exact h
  subst hv
  subst hr
  rw [readFq6_exact h0, readFq6_exact h1]
  simp [Fq12.ser, List.append_assoc]

theorem readG1Affine_exact {b : List UInt8} {v : G1Affine} {r : List UInt8}
    (h : readG1Affine b = some (v, r)) : b = v.ser ++ r := by
  simp only [readG1Affine, bind_def, pure_def] at h
  obtain ⟨x, m1, hx, h⟩ := rBind_exact h
  obtain ⟨y, m2, hy, h⟩ := rBind_exact h
  obtain ⟨inf, m3, hi, h⟩ := rBind_exact h
  obtain ⟨hv, hr⟩ := rPure_exact h
  subst hv
  subst hr
  rw [readBigInteger256_exact hx, readBigInteger256_exact hy, readBool_exact hi]
  simp [G1Affine.ser, List.append_assoc]

theorem readG2Affine_exact {b : List UInt8} {v : G2Affine} {r : List UInt8}
    (h : readG2Affine b = some (v, r)) : b = v.ser ++ r := by
  simp only [readG2Affine, bind_def, pure_def] at h
  obtain ⟨x, m1, hx, h⟩ := rBind_exact h
  obtain ⟨y, m2, hy, h⟩ := rBind_exact h
  obtain ⟨inf, m3, hi, h⟩ := rBind_exact h
  obtain ⟨hv, hr⟩ := rPure_exact h
  subst hv
  subst hr
  rw [readFq2_exact hx, readFq2_exact hy, readBool_exact hi]
  simp [G2Affine.ser, List.append_assoc]

theorem readEllCoeff_exact {b : List UInt8} {v : Fq2 × Fq2 × Fq2} {r : List UInt8}
    (h : readEllCoeff b = some (v, r)) : b = ellCoeffSer v ++ r := by
  simp only [readEllCoeff, bind_def, pure_def] at h
  obtain ⟨a, m1, ha, h⟩ := rBind_exact h
  obtain ⟨b2, m2, hb, h⟩ := rBind_exact h
  obtain ⟨c, m3, hc, h⟩ := rBind_exact h
  obtain ⟨hv, hr⟩ := rPure_exact h
  subst hv
  subst hr
  rw [readFq2_exact ha, readFq2_exact hb, readFq2_exact hc]
  simp [ellCoeffSer, List.append_assoc]

theorem readListAux_exact {α} {ser : α → List UInt8} {m : ReadM α}
    (hex : ∀ b x r, m b = some (x, r) → b = ser x ++ r) :
    ∀ (n : Nat) (b : List UInt8) (xs : List α) (r : List UInt8),
      readListAux m n b = some (xs, r) →
      b = (xs.map ser).flatten ++ r ∧ xs.length = n := by
  intro n
  induction n with
  | zero =>
    intro b xs r h
    obtain ⟨hxs, hr⟩ := rPure_exact h
    subst hxs
    subst hr
    simp
  | succ k ih =>
    intro b xs r h
    simp only [readListAux, bind_def, pure_def] at h
    obtain ⟨a, m1, ha, h⟩ := rBind_exact h
    obtain ⟨t, m2, ht, h⟩ := rBind_exact h
    obtain ⟨hxs, hr⟩ := rPure_exact h
    subst hxs
    subst hr
    obtain ⟨hb1, hlen⟩ := ih _ _ _ ht
    subst hb1
    rw [hex _ _ _ ha]
    constructor
    · simp [List.append_assoc]
    · simp [hlen]

theorem readList_exact {α} {ser : α → List UInt8} {m : ReadM α}
    (hex : ∀ b x r, m b = some (x, r) → b = ser x ++ r) {b : List UInt8} {xs : List α}
    {r : List UInt8} (h : readList m b = some (xs, r)) : b = serList ser xs ++ r := by
  simp only [readList, bind_def] at h
  obtain ⟨n, m1, hn, h⟩ := rBind_exact h
  obtain ⟨hb1, hlen⟩ := readListAux_exact hex n m1 xs r h
  subst hb1
  obtain ⟨hserc, hn32⟩ := readU32_exact hn
  rw [hserc]
  simp [serList, hlen, List.append_assoc]

theorem readG2Prepared_exact {b : List UInt8} {v : G2Prepared} {r : List UInt8}
    (h : readG2Prepared b = some (v, r)) : b = v.ser ++ r := by
  simp only [readG2Prepared, bind_def, pure_def] at h
  obtain ⟨coeffs, m1, hc, h⟩ := rBind_exact h
  obtain ⟨inf, m2, hi, h⟩ := rBind_exact h
  obtain ⟨hv, hr⟩ := rPure_exact h
  subst hv
  subst hr
  rw [readList_exact (fun _ _ _ hh => readEllCoeff_exact hh) hc, readBool_exact hi]
  simp [G2Prepared.ser, List.append_assoc]

theorem readVerifyingKey_exact {b : List UInt8} {v : VerifyingKey} {r : List UInt8}
    (h : readVerifyingKey b = some (v, r)) : b = v.ser ++ r := by
  simp only [readVerifyingKey, bind_def, pure_def] at h
  obtain ⟨a, m1, ha, h⟩ := rBind_exact h
  obtain ⟨b2, m2, hb, h⟩ := rBind_exact h
  obtain ⟨g2, m3, hg, h⟩ := rBind_exact h
  obtain ⟨d2, m4, hd, h⟩ := rBind_exact h
  obtain ⟨abc, m5, habc, h⟩ := rBind_exact h
  obtain ⟨hv, hr⟩ := rPure_exact h
  subst hv
  subst hr
  rw [readG1Affine_exact ha, readG2Affine_exact hb, readG2Affine_exact hg,
    readG2Affine_exact hd, readList_exact (fun _ _ _ hh => readG1Affine_exact hh) habc]
  simp [VerifyingKey.ser, List.append_assoc]

theorem readPreparedVerifyingKey_exact {b : List UInt8} {v : PreparedVerifyingKey}
    {r : List UInt8} (h : readPreparedVerifyingKey b = some (v, r)) : b = v.ser ++ r := by
  simp only [readPreparedVerifyingKey, bind_def, pure_def] at h
  obtain ⟨vk, m1, hvk, h⟩ := rBind_exact h
  obtain ⟨ab, m2, hab, h⟩ := rBind_exact h
  obtain ⟨gpc, m3, hg, h⟩ := rBind_exact h
  obtain ⟨dpc, m4, hd, h⟩ := rBind_exact h
  obtain ⟨hv, hr⟩ := rPure_exact h
  subst hv
  subst hr
  rw [readVerifyingKey_exact hvk, readFq12_exact hab, readG2Prepared_exact hg,
    readG2Prepared_exact hd]
  simp [PreparedVerifyingKey.ser, List.append_assoc]

/-- C5: for every entity type, decoding (`try_from_slice`) the borsh encoding
yields the value back (for the `Vec`-carrying types under the in-range
condition that the length fits in the `u32` prefix, which `len as u32`
truncates), and — the exactness half — a successful decode forces the input
bytes to be exactly the encoding of the result, so any byte-length mismatch
(truncated or over-long input, and any invalid `bool` discriminant) is
rejected rather than silently truncated. -/
theorem borsh_codec_spec :
    (∀ x : BigInteger256, tryFromSlice readBigInteger256 x.ser = some x) ∧
    (∀ (b : List UInt8) (x : BigInteger256),
      tryFromSlice readBigInteger256 b = some x → b = x.ser) ∧
    (∀ x : Fr, tryFromSlice readFr x.ser = some x) ∧
    (∀ (b : List UInt8) (x : Fr), tryFromSlice readFr b = some x → b = x.ser) ∧
    (∀ x : Fq, tryFromSlice readFq x.ser = some x) ∧
    (∀ (b : List UInt8) (x : Fq), tryFromSlice readFq b = some x → b = x.ser) ∧
    (∀ x : Fq2, tryFromSlice readFq2 x.ser = some x) ∧
    (∀ (b : List UInt8) (x : Fq2), tryFromSlice readFq2 b = some x → b = x.ser) ∧
    (∀ x : Fq6, tryFromSlice readFq6 x.ser = some x) ∧
    (∀ (b : List UInt8) (x : Fq6), tryFromSlice readFq6 b = some x → b = x.ser) ∧
    (∀ x : Fq12, tryFromSlice readFq12 x.ser = some x) ∧
    (∀ (b : List UInt8) (x : Fq12), tryFromSlice readFq12 b = some x → b = x.ser) ∧
    (∀ x : G1Affine, tryFromSlice readG1Affine x.ser = some x) ∧
    (∀ (b : List UInt8) (x : G1Affine), tryFromSlice readG1Affine b = some x → b = x.ser) ∧
    (∀ x : G2Affine, tryFromSlice readG2Affine x.ser = some x) ∧
    (∀ (b : List UInt8) (x : G2Affine), tryFromSlice readG2Affine b = some x → b = x.ser) ∧
    (∀ x : G2Prepared, x.ell_coeffs.length < 2 ^ 32 →
      tryFromSlice readG2Prepared x.ser = some x) ∧
    (∀ (b : List UInt8) (x : G2Prepared),
      tryFromSlice readG2Prepared b = some x → b = x.ser) ∧
    (∀ x : VerifyingKey, x.gamma_abc_g1.length < 2 ^ 32 →
      tryFromSlice readVerifyingKey x.ser = some x) ∧
    (∀ (b : List UInt8) (x : VerifyingKey),
      tryFromSlice readVerifyingKey b = some x → b = x.ser) ∧
    (∀ x : PreparedVerifyingKey, x.vk.gamma_abc_g1.length < 2 ^ 32 →
      x.gamma_g2_neg_pc.ell_coeffs.length < 2 ^ 32 →
      x.delta_g2_neg_pc.ell_coeffs.length < 2 ^ 32 →
      tryFromSlice readPreparedVerifyingKey x.ser = some x) ∧
    (∀ (b : List UInt8) (x : PreparedVerifyingKey),
      tryFromSlice readPreparedVerifyingKey b = some x → b = x.ser) := by
  refine ⟨fun x => tryFromSlice_ser readBigInteger256_ser x,
    fun b x h => tryFromSlice_exact (fun _ _ _ hh => readBigInteger256_exact hh) h,
    fun x => tryFromSlice_ser readFr_ser x,
    fun b x h => tryFromSlice_exact (fun _ _ _ hh => readFr_exact hh) h,
    fun x => tryFromSlice_ser readFq_ser x,
    fun b x h => tryFromSlice_exact (fun _ _ _ hh => readFq_exact hh) h,
    fun x => tryFromSlice_ser readFq2_ser x,
    fun b x h => tryFromSlice_exact (fun _ _ _ hh => readFq2_exact hh) h,
    fun x => tryFromSlice_ser readFq6_ser x,
    fun b x h => tryFromSlice_exact (fun _ _ _ hh => readFq6_exact hh) h,
    fun x => tryFromSlice_ser readFq12_ser x,
    fun b x h => tryFromSlice_exact (fun _ _ _ hh => readFq12_exact hh) h,
    fun x => tryFromSlice_ser readG1Affine_ser x,
    fun b x h => tryFromSlice_exact (fun _ _ _ hh => readG1Affine_exact hh) h,
    fun x => tryFromSlice_ser readG2Affine_ser x,
    fun b x h => tryFromSlice_exact (fun _ _ _ hh => readG2Affine_exact hh) h,
    ?_,
    fun b x h => tryFromSlice_exact (fun _ _ _ hh => readG2Prepared_exact hh) h,
    ?_,
    fun b x h => tryFromSlice_exact (fun _ _ _ hh => readVerifyingKey_exact hh) h,
    ?_,
    fun b x h => tryFromSlice_exact (fun _ _ _ hh => readPreparedVerifyingKey_exact hh) h⟩
  · intro x hl
    unfold tryFromSlice
    rw [← List.append_nil x.ser, readG2Prepared_ser x hl []]
  · intro x hl
    unfold tryFromSlice
    rw [← List.append_nil x.ser, readVerifyingKey_ser x hl []]
  · intro x h1 h2 h3
    unfold tryFromSlice
    rw [← List.append_nil x.ser, readPreparedVerifyingKey_ser x h1 h2 h3 []]

/-- C5 witness: the hypothesis-carrying round-trips at small concrete values
(a prepared key with empty coefficient lists and an empty `gamma_abc_g1`). -/
theorem borsh_codec_spec_witness :
    emptyIcPvk.vk.gamma_abc_g1.length < 2 ^ 32 ∧
    emptyIcPvk.gamma_g2_neg_pc.ell_coeffs.length < 2 ^ 32 ∧
    emptyIcPvk.delta_g2_neg_pc.ell_coeffs.length < 2 ^ 32 ∧
    tryFromSlice readG2Prepared emptyIcPvk.gamma_g2_neg_pc.ser =
      some emptyIcPvk.gamma_g2_neg_pc ∧
    tryFromSlice readVerifyingKey emptyIcPvk.vk.ser = some emptyIcPvk.vk ∧
    tryFromSlice readPreparedVerifyingKey emptyIcPvk.ser = some emptyIcPvk := by
  refine ⟨by decide, by decide, by decide, ?_, ?_, ?_⟩
  · exact borsh_codec_spec.2.2.2.2.2.2.2.2.2.2.2.2.2.2.2.2.1
      emptyIcPvk.gamma_g2_neg_pc (by decide)
  · exact borsh_codec_spec.2.2.2.2.2.2.2.2.2.2.2.2.2.2.2.2.2.2.1
      emptyIcPvk.vk (by decide)
  · exact borsh_codec_spec.2.2.2.2.2.2.2.2.2.2.2.2.2.2.2.2.2.2.2.2.1
      emptyIcPvk (by decide) (by decide) (by decide)

end ElectronRs
